import Mathlib

/-!
Verification of the Synthesis-Assets-Explorer data-access core.

This file shallowly embeds the parts of the repository that the checked
properties talk about:

* `src/extwin/synthesis/aes.py` — the credential cipher
  (`encrypt_aes` / `decrypt_aes`): AES-128-ECB with PKCS7 padding and a
  fixed embedded key, with base64 transport encoding.  The cipher, the
  padding, base64 and UTF-8 are library routines called by the source;
  they are modelled here by faithful executable implementations
  (FIPS-197 AES, RFC 4648 base64, strict UTF-8, PKCS7).
* `src/extwin/synthesis/data_manager.py` — the request gateway:
  envelope decoding, business-status checking, error classes, and the
  URL-selection logic of `get_category_tree` / `get_asset_list`.
* `src/extwin/synthesis/app_state.py` — the process-wide auth state.
* `src/extwin/synthesis/window.py` — the pagination controller
  (`_load_assets_for_category`, `_reset_pagination_state`), the search
  debounce (`_on_search_keyword_changed`).
* `src/extwin/synthesis/tree_models.py` — the category tree builder
  (`CategoryModel._build_tree`).

Machine bytes are represented as `Nat` kept below 256.
-/

/-! ## Byte-level GF(2^8) primitives (AES, FIPS-197) -/

/-- AES `xtime`: multiplication by x in GF(2^8) modulo x^8+x^4+x^3+x+1,
on a byte value. -/
def xtime (b : Nat) : Nat :=
  ((2 * b) % 256) ^^^ (if b.testBit 7 then 27 else 0)

def mul2 (x : Nat) : Nat := xtime x

def mul3 (x : Nat) : Nat := xtime x ^^^ x

def mul4 (x : Nat) : Nat := xtime (xtime x)

def mul8 (x : Nat) : Nat := xtime (mul4 x)

def mul9 (x : Nat) : Nat := mul8 x ^^^ x

def mul11 (x : Nat) : Nat := mul8 x ^^^ mul2 x ^^^ x

def mul13 (x : Nat) : Nat := mul8 x ^^^ mul4 x ^^^ x

def mul14 (x : Nat) : Nat := mul8 x ^^^ mul4 x ^^^ mul2 x

theorem nat_mod256_xor (x y : Nat) : (x ^^^ y) % 256 = (x % 256) ^^^ (y % 256) := by
  have h : (256 : Nat) = 2 ^ 8 := by norm_num
  rw [h]
  apply Nat.eq_of_testBit_eq
  intro i
  simp only [Nat.testBit_mod_two_pow, Nat.testBit_xor]
  by_cases hi : i < 8 <;> simp [hi]

theorem nat_two_mul_xor (x y : Nat) : 2 * (x ^^^ y) = 2 * x ^^^ 2 * y := by
  have h : ∀ z : Nat, 2 * z = z <<< 1 := by
    intro z
    rw [Nat.shiftLeft_eq]
    ring
  rw [h, h, h]
  apply Nat.eq_of_testBit_eq
  intro i
  simp only [Nat.testBit_shiftLeft, Nat.testBit_xor]
  by_cases hi : 1 ≤ i <;> simp [hi]

theorem nat_xor_left_comm (a b c : Nat) : a ^^^ (b ^^^ c) = b ^^^ (a ^^^ c) := by
  rw [← Nat.xor_assoc, Nat.xor_comm a b, Nat.xor_assoc]

theorem nat_xor_cancel_left (a b : Nat) : a ^^^ (a ^^^ b) = b := by
  rw [← Nat.xor_assoc, Nat.xor_self, Nat.zero_xor]

theorem xtime_xor (x y : Nat) : xtime (x ^^^ y) = xtime x ^^^ xtime y := by
  unfold xtime
  rw [nat_two_mul_xor, nat_mod256_xor, Nat.testBit_xor]
  rcases hx : x.testBit 7 <;> rcases hy : y.testBit 7 <;>
    simp [Nat.xor_assoc, Nat.xor_comm, nat_xor_left_comm, nat_xor_cancel_left, Nat.xor_self, Nat.xor_zero, Nat.zero_xor]

theorem mul2_xor (x y : Nat) : mul2 (x ^^^ y) = mul2 x ^^^ mul2 y := xtime_xor x y

theorem mul3_xor (x y : Nat) : mul3 (x ^^^ y) = mul3 x ^^^ mul3 y := by
  unfold mul3
  rw [xtime_xor]
  simp [Nat.xor_assoc, Nat.xor_comm, nat_xor_left_comm, nat_xor_cancel_left, Nat.xor_self, Nat.xor_zero, Nat.zero_xor]

theorem mul4_xor (x y : Nat) : mul4 (x ^^^ y) = mul4 x ^^^ mul4 y := by
  unfold mul4
  rw [xtime_xor, xtime_xor]

theorem mul8_xor (x y : Nat) : mul8 (x ^^^ y) = mul8 x ^^^ mul8 y := by
  unfold mul8
  rw [mul4_xor, xtime_xor]

theorem mul9_xor (x y : Nat) : mul9 (x ^^^ y) = mul9 x ^^^ mul9 y := by
  unfold mul9
  rw [mul8_xor]
  simp [Nat.xor_assoc, Nat.xor_comm, nat_xor_left_comm, nat_xor_cancel_left, Nat.xor_self, Nat.xor_zero, Nat.zero_xor]

theorem mul11_xor (x y : Nat) : mul11 (x ^^^ y) = mul11 x ^^^ mul11 y := by
  unfold mul11
  rw [mul8_xor, mul2_xor]
  simp [Nat.xor_assoc, Nat.xor_comm, nat_xor_left_comm, nat_xor_cancel_left, Nat.xor_self, Nat.xor_zero, Nat.zero_xor]

theorem mul13_xor (x y : Nat) : mul13 (x ^^^ y) = mul13 x ^^^ mul13 y := by
  unfold mul13
  rw [mul8_xor, mul4_xor]
  simp [Nat.xor_assoc, Nat.xor_comm, nat_xor_left_comm, nat_xor_cancel_left, Nat.xor_self, Nat.xor_zero, Nat.zero_xor]

theorem mul14_xor (x y : Nat) : mul14 (x ^^^ y) = mul14 x ^^^ mul14 y := by
  unfold mul14
  rw [mul8_xor, mul4_xor, mul2_xor]
  simp [Nat.xor_assoc, Nat.xor_comm, nat_xor_left_comm, nat_xor_cancel_left, Nat.xor_self, Nat.xor_zero, Nat.zero_xor]

theorem xor_lt_256 {x y : Nat} (hx : x < 256) (hy : y < 256) : x ^^^ y < 256 := by
  have h : (256 : Nat) = 2 ^ 8 := by norm_num
  rw [h] at hx hy ⊢
  exact Nat.xor_lt_two_pow hx hy

theorem xtime_lt (b : Nat) : xtime b < 256 := by
  unfold xtime
  apply xor_lt_256
  · exact Nat.mod_lt _ (by norm_num)
  · split <;> norm_num

/-- AES S-box lookup table (FIPS-197). -/
def sboxTable : List Nat :=
  [99, 124, 119, 123, 242, 107, 111, 197, 48, 1, 103, 43, 254, 215, 171, 118,
   202, 130, 201, 125, 250, 89, 71, 240, 173, 212, 162, 175, 156, 164, 114, 192,
   183, 253, 147, 38, 54, 63, 247, 204, 52, 165, 229, 241, 113, 216, 49, 21,
   4, 199, 35, 195, 24, 150, 5, 154, 7, 18, 128, 226, 235, 39, 178, 117,
   9, 131, 44, 26, 27, 110, 90, 160, 82, 59, 214, 179, 41, 227, 47, 132,
   83, 209, 0, 237, 32, 252, 177, 91, 106, 203, 190, 57, 74, 76, 88, 207,
   208, 239, 170, 251, 67, 77, 51, 133, 69, 249, 2, 127, 80, 60, 159, 168,
   81, 163, 64, 143, 146, 157, 56, 245, 188, 182, 218, 33, 16, 255, 243, 210,
   205, 12, 19, 236, 95, 151, 68, 23, 196, 167, 126, 61, 100, 93, 25, 115,
   96, 129, 79, 220, 34, 42, 144, 136, 70, 238, 184, 20, 222, 94, 11, 219,
   224, 50, 58, 10, 73, 6, 36, 92, 194, 211, 172, 98, 145, 149, 228, 121,
   231, 200, 55, 109, 141, 213, 78, 169, 108, 86, 244, 234, 101, 122, 174, 8,
   186, 120, 37, 46, 28, 166, 180, 198, 232, 221, 116, 31, 75, 189, 139, 138,
   112, 62, 181, 102, 72, 3, 246, 14, 97, 53, 87, 185, 134, 193, 29, 158,
   225, 248, 152, 17, 105, 217, 142, 148, 155, 30, 135, 233, 206, 85, 40, 223,
   140, 161, 137, 13, 191, 230, 66, 104, 65, 153, 45, 15, 176, 84, 187, 22]

/-- Inverse AES S-box lookup table (FIPS-197). -/
def invSboxTable : List Nat :=
  [82, 9, 106, 213, 48, 54, 165, 56, 191, 64, 163, 158, 129, 243, 215, 251,
   124, 227, 57, 130, 155, 47, 255, 135, 52, 142, 67, 68, 196, 222, 233, 203,
   84, 123, 148, 50, 166, 194, 35, 61, 238, 76, 149, 11, 66, 250, 195, 78,
   8, 46, 161, 102, 40, 217, 36, 178, 118, 91, 162, 73, 109, 139, 209, 37,
   114, 248, 246, 100, 134, 104, 152, 22, 212, 164, 92, 204, 93, 101, 182, 146,
   108, 112, 72, 80, 253, 237, 185, 218, 94, 21, 70, 87, 167, 141, 157, 132,
   144, 216, 171, 0, 140, 188, 211, 10, 247, 228, 88, 5, 184, 179, 69, 6,
   208, 44, 30, 143, 202, 63, 15, 2, 193, 175, 189, 3, 1, 19, 138, 107,
   58, 145, 17, 65, 79, 103, 220, 234, 151, 242, 207, 206, 240, 180, 230, 115,
   150, 172, 116, 34, 231, 173, 53, 133, 226, 249, 55, 232, 28, 117, 223, 110,
   71, 241, 26, 113, 29, 41, 197, 137, 111, 183, 98, 14, 170, 24, 190, 27,
   252, 86, 62, 75, 198, 210, 121, 32, 154, 219, 192, 254, 120, 205, 90, 244,
   31, 221, 168, 51, 136, 7, 199, 49, 177, 18, 16, 89, 39, 128, 236, 95,
   96, 81, 127, 169, 25, 181, 74, 13, 45, 229, 122, 159, 147, 201, 156, 239,
   160, 224, 59, 77, 174, 42, 245, 176, 200, 235, 187, 60, 131, 83, 153, 97,
   23, 43, 4, 126, 186, 119, 214, 38, 225, 105, 20, 99, 85, 33, 12, 125]

def sbox (b : Nat) : Nat := sboxTable.getD (b % 256) 0

def invSbox (b : Nat) : Nat := invSboxTable.getD (b % 256) 0

set_option maxRecDepth 8192 in
theorem sbox_lt (b : Nat) : sbox b < 256 := by
  have h : ∀ i : Fin 256, sboxTable.getD i.val 0 < 256 := by decide
  exact h ⟨b % 256, Nat.mod_lt _ (by norm_num)⟩

set_option maxRecDepth 8192 in
theorem invSbox_sbox (b : Nat) (hb : b < 256) : invSbox (sbox b) = b := by
  have h : ∀ i : Fin 256, invSbox (sbox i.val) = i.val := by decide
  exact h ⟨b, hb⟩

/-! ## The AES state block: 16 bytes in column-major order -/

/-- One 16-byte AES state (or round key).  Byte `s(4*c+r)` sits in
row `r`, column `c` of the FIPS-197 state array. -/
structure Block where
  s0 : Nat
  s1 : Nat
  s2 : Nat
  s3 : Nat
  s4 : Nat
  s5 : Nat
  s6 : Nat
  s7 : Nat
  s8 : Nat
  s9 : Nat
  s10 : Nat
  s11 : Nat
  s12 : Nat
  s13 : Nat
  s14 : Nat
  s15 : Nat
deriving DecidableEq, Repr

/-- All sixteen bytes of the block are in byte range. -/
def Block.Bounded (b : Block) : Prop :=
  b.s0 < 256 ∧ b.s1 < 256 ∧ b.s2 < 256 ∧ b.s3 < 256 ∧
  b.s4 < 256 ∧ b.s5 < 256 ∧ b.s6 < 256 ∧ b.s7 < 256 ∧
  b.s8 < 256 ∧ b.s9 < 256 ∧ b.s10 < 256 ∧ b.s11 < 256 ∧
  b.s12 < 256 ∧ b.s13 < 256 ∧ b.s14 < 256 ∧ b.s15 < 256

instance (b : Block) : Decidable b.Bounded := by
  unfold Block.Bounded
  infer_instance

def subBytes (s : Block) : Block :=
  ⟨sbox s.s0, sbox s.s1, sbox s.s2, sbox s.s3,
   sbox s.s4, sbox s.s5, sbox s.s6, sbox s.s7,
   sbox s.s8, sbox s.s9, sbox s.s10, sbox s.s11,
   sbox s.s12, sbox s.s13, sbox s.s14, sbox s.s15⟩

def invSubBytes (s : Block) : Block :=
  ⟨invSbox s.s0, invSbox s.s1, invSbox s.s2, invSbox s.s3,
   invSbox s.s4, invSbox s.s5, invSbox s.s6, invSbox s.s7,
   invSbox s.s8, invSbox s.s9, invSbox s.s10, invSbox s.s11,
   invSbox s.s12, invSbox s.s13, invSbox s.s14, invSbox s.s15⟩

/-- ShiftRows: row `r` of the state is rotated left by `r` columns. -/
def shiftRows (s : Block) : Block :=
  ⟨s.s0, s.s5, s.s10, s.s15,
   s.s4, s.s9, s.s14, s.s3,
   s.s8, s.s13, s.s2, s.s7,
   s.s12, s.s1, s.s6, s.s11⟩

/-- InvShiftRows: row `r` of the state is rotated right by `r` columns. -/
def invShiftRows (s : Block) : Block :=
  ⟨s.s0, s.s13, s.s10, s.s7,
   s.s4, s.s1, s.s14, s.s11,
   s.s8, s.s5, s.s2, s.s15,
   s.s12, s.s9, s.s6, s.s3⟩

def addRoundKey (k s : Block) : Block :=
  ⟨s.s0 ^^^ k.s0, s.s1 ^^^ k.s1, s.s2 ^^^ k.s2, s.s3 ^^^ k.s3,
   s.s4 ^^^ k.s4, s.s5 ^^^ k.s5, s.s6 ^^^ k.s6, s.s7 ^^^ k.s7,
   s.s8 ^^^ k.s8, s.s9 ^^^ k.s9, s.s10 ^^^ k.s10, s.s11 ^^^ k.s11,
   s.s12 ^^^ k.s12, s.s13 ^^^ k.s13, s.s14 ^^^ k.s14, s.s15 ^^^ k.s15⟩

/-- MixColumns on one column of four bytes. -/
def mixCol (a b c d : Nat) : Nat × Nat × Nat × Nat :=
  (mul2 a ^^^ mul3 b ^^^ c ^^^ d,
   a ^^^ mul2 b ^^^ mul3 c ^^^ d,
   a ^^^ b ^^^ mul2 c ^^^ mul3 d,
   mul3 a ^^^ b ^^^ c ^^^ mul2 d)

/-- InvMixColumns on one column of four bytes. -/
def invMixCol (a b c d : Nat) : Nat × Nat × Nat × Nat :=
  (mul14 a ^^^ mul11 b ^^^ mul13 c ^^^ mul9 d,
   mul9 a ^^^ mul14 b ^^^ mul11 c ^^^ mul13 d,
   mul13 a ^^^ mul9 b ^^^ mul14 c ^^^ mul11 d,
   mul11 a ^^^ mul13 b ^^^ mul9 c ^^^ mul14 d)

def mixColumns (s : Block) : Block :=
  let c0 := mixCol s.s0 s.s1 s.s2 s.s3
  let c1 := mixCol s.s4 s.s5 s.s6 s.s7
  let c2 := mixCol s.s8 s.s9 s.s10 s.s11
  let c3 := mixCol s.s12 s.s13 s.s14 s.s15
  ⟨c0.1, c0.2.1, c0.2.2.1, c0.2.2.2,
   c1.1, c1.2.1, c1.2.2.1, c1.2.2.2,
   c2.1, c2.2.1, c2.2.2.1, c2.2.2.2,
   c3.1, c3.2.1, c3.2.2.1, c3.2.2.2⟩

def invMixColumns (s : Block) : Block :=
  let c0 := invMixCol s.s0 s.s1 s.s2 s.s3
  let c1 := invMixCol s.s4 s.s5 s.s6 s.s7
  let c2 := invMixCol s.s8 s.s9 s.s10 s.s11
  let c3 := invMixCol s.s12 s.s13 s.s14 s.s15
  ⟨c0.1, c0.2.1, c0.2.2.1, c0.2.2.2,
   c1.1, c1.2.1, c1.2.2.1, c1.2.2.2,
   c2.1, c2.2.1, c2.2.2.1, c2.2.2.2,
   c3.1, c3.2.1, c3.2.2.1, c3.2.2.2⟩

instance : Std.Associative (fun a b : Nat => a ^^^ b) := ⟨Nat.xor_assoc⟩

instance : Std.Commutative (fun a b : Nat => a ^^^ b) := ⟨Nat.xor_comm⟩

/-! ## MixColumns is inverted by InvMixColumns

The composite is GF(2)-linear in every input byte, so it suffices to
check the four coefficient patterns of the circulant matrix product on
single bytes (256 cases each). -/

set_option maxRecDepth 8192 in
theorem coeff_one : ∀ x : Fin 256,
    mul14 (mul2 x.val) ^^^ mul11 x.val ^^^ mul13 x.val ^^^ mul9 (mul3 x.val) = x.val := by
  decide

set_option maxRecDepth 8192 in
theorem coeff_zero_a : ∀ x : Fin 256,
    mul14 (mul3 x.val) ^^^ mul11 (mul2 x.val) ^^^ mul13 x.val ^^^ mul9 x.val = 0 := by
  decide

set_option maxRecDepth 8192 in
theorem coeff_zero_b : ∀ x : Fin 256,
    mul14 x.val ^^^ mul11 (mul3 x.val) ^^^ mul13 (mul2 x.val) ^^^ mul9 x.val = 0 := by
  decide

set_option maxRecDepth 8192 in
theorem coeff_zero_c : ∀ x : Fin 256,
    mul14 x.val ^^^ mul11 x.val ^^^ mul13 (mul3 x.val) ^^^ mul9 (mul2 x.val) = 0 := by
  decide

theorem invmix_comp0 (a b c d : Nat)
    (ha : a < 256) (hb : b < 256) (hc : c < 256) (hd : d < 256) :
    mul14 (mul2 a ^^^ mul3 b ^^^ c ^^^ d) ^^^ mul11 (a ^^^ mul2 b ^^^ mul3 c ^^^ d) ^^^
      mul13 (a ^^^ b ^^^ mul2 c ^^^ mul3 d) ^^^ mul9 (mul3 a ^^^ b ^^^ c ^^^ mul2 d) = a := by
  have h1 := coeff_one ⟨a, ha⟩
  have h2 := coeff_zero_a ⟨b, hb⟩
  have h3 := coeff_zero_b ⟨c, hc⟩
  have h4 := coeff_zero_c ⟨d, hd⟩
  simp only [mul14_xor, mul11_xor, mul13_xor, mul9_xor]
  trans (mul14 (mul2 a) ^^^ mul11 a ^^^ mul13 a ^^^ mul9 (mul3 a)) ^^^
      (mul14 (mul3 b) ^^^ mul11 (mul2 b) ^^^ mul13 b ^^^ mul9 b) ^^^
      (mul14 c ^^^ mul11 (mul3 c) ^^^ mul13 (mul2 c) ^^^ mul9 c) ^^^
      (mul14 d ^^^ mul11 d ^^^ mul13 (mul3 d) ^^^ mul9 (mul2 d))
  · ac_rfl
  · rw [h1, h2, h3, h4]
    simp

theorem invmix_comp1 (a b c d : Nat)
    (ha : a < 256) (hb : b < 256) (hc : c < 256) (hd : d < 256) :
    mul9 (mul2 a ^^^ mul3 b ^^^ c ^^^ d) ^^^ mul14 (a ^^^ mul2 b ^^^ mul3 c ^^^ d) ^^^
      mul11 (a ^^^ b ^^^ mul2 c ^^^ mul3 d) ^^^ mul13 (mul3 a ^^^ b ^^^ c ^^^ mul2 d) = b := by
  have h1 := coeff_zero_c ⟨a, ha⟩
  have h2 := coeff_one ⟨b, hb⟩
  have h3 := coeff_zero_a ⟨c, hc⟩
  have h4 := coeff_zero_b ⟨d, hd⟩
  simp only [mul14_xor, mul11_xor, mul13_xor, mul9_xor]
  trans (mul14 a ^^^ mul11 a ^^^ mul13 (mul3 a) ^^^ mul9 (mul2 a)) ^^^
      (mul14 (mul2 b) ^^^ mul11 b ^^^ mul13 b ^^^ mul9 (mul3 b)) ^^^
      (mul14 (mul3 c) ^^^ mul11 (mul2 c) ^^^ mul13 c ^^^ mul9 c) ^^^
      (mul14 d ^^^ mul11 (mul3 d) ^^^ mul13 (mul2 d) ^^^ mul9 d)
  · ac_rfl
  · rw [h1, h2, h3, h4]
    simp

theorem invmix_comp2 (a b c d : Nat)
    (ha : a < 256) (hb : b < 256) (hc : c < 256) (hd : d < 256) :
    mul13 (mul2 a ^^^ mul3 b ^^^ c ^^^ d) ^^^ mul9 (a ^^^ mul2 b ^^^ mul3 c ^^^ d) ^^^
      mul14 (a ^^^ b ^^^ mul2 c ^^^ mul3 d) ^^^ mul11 (mul3 a ^^^ b ^^^ c ^^^ mul2 d) = c := by
  have h1 := coeff_zero_b ⟨a, ha⟩
  have h2 := coeff_zero_c ⟨b, hb⟩
  have h3 := coeff_one ⟨c, hc⟩
  have h4 := coeff_zero_a ⟨d, hd⟩
  simp only [mul14_xor, mul11_xor, mul13_xor, mul9_xor]
  trans (mul14 a ^^^ mul11 (mul3 a) ^^^ mul13 (mul2 a) ^^^ mul9 a) ^^^
      (mul14 b ^^^ mul11 b ^^^ mul13 (mul3 b) ^^^ mul9 (mul2 b)) ^^^
      (mul14 (mul2 c) ^^^ mul11 c ^^^ mul13 c ^^^ mul9 (mul3 c)) ^^^
      (mul14 (mul3 d) ^^^ mul11 (mul2 d) ^^^ mul13 d ^^^ mul9 d)
  · ac_rfl
  · rw [h1, h2, h3, h4]
    simp

theorem invmix_comp3 (a b c d : Nat)
    (ha : a < 256) (hb : b < 256) (hc : c < 256) (hd : d < 256) :
    mul11 (mul2 a ^^^ mul3 b ^^^ c ^^^ d) ^^^ mul13 (a ^^^ mul2 b ^^^ mul3 c ^^^ d) ^^^
      mul9 (a ^^^ b ^^^ mul2 c ^^^ mul3 d) ^^^ mul14 (mul3 a ^^^ b ^^^ c ^^^ mul2 d) = d := by
  have h1 := coeff_zero_a ⟨a, ha⟩
  have h2 := coeff_zero_b ⟨b, hb⟩
  have h3 := coeff_zero_c ⟨c, hc⟩
  have h4 := coeff_one ⟨d, hd⟩
  simp only [mul14_xor, mul11_xor, mul13_xor, mul9_xor]
  trans (mul14 (mul3 a) ^^^ mul11 (mul2 a) ^^^ mul13 a ^^^ mul9 a) ^^^
      (mul14 b ^^^ mul11 (mul3 b) ^^^ mul13 (mul2 b) ^^^ mul9 b) ^^^
      (mul14 c ^^^ mul11 c ^^^ mul13 (mul3 c) ^^^ mul9 (mul2 c)) ^^^
      (mul14 (mul2 d) ^^^ mul11 d ^^^ mul13 d ^^^ mul9 (mul3 d))
  · ac_rfl
  · rw [h1, h2, h3, h4]
    simp

theorem invMixColumns_mixColumns (s : Block) (hs : s.Bounded) :
    invMixColumns (mixColumns s) = s := by
  obtain ⟨b0, b1, b2, b3, b4, b5, b6, b7, b8, b9, b10, b11, b12, b13, b14, b15⟩ := s
  obtain ⟨h0, h1, h2, h3, h4, h5, h6, h7, h8, h9, h10, h11, h12, h13, h14, h15⟩ := hs
  simp only [mixColumns, invMixColumns, mixCol, invMixCol, Block.mk.injEq]
  exact ⟨invmix_comp0 _ _ _ _ h0 h1 h2 h3, invmix_comp1 _ _ _ _ h0 h1 h2 h3,
    invmix_comp2 _ _ _ _ h0 h1 h2 h3, invmix_comp3 _ _ _ _ h0 h1 h2 h3,
    invmix_comp0 _ _ _ _ h4 h5 h6 h7, invmix_comp1 _ _ _ _ h4 h5 h6 h7,
    invmix_comp2 _ _ _ _ h4 h5 h6 h7, invmix_comp3 _ _ _ _ h4 h5 h6 h7,
    invmix_comp0 _ _ _ _ h8 h9 h10 h11, invmix_comp1 _ _ _ _ h8 h9 h10 h11,
    invmix_comp2 _ _ _ _ h8 h9 h10 h11, invmix_comp3 _ _ _ _ h8 h9 h10 h11,
    invmix_comp0 _ _ _ _ h12 h13 h14 h15, invmix_comp1 _ _ _ _ h12 h13 h14 h15,
    invmix_comp2 _ _ _ _ h12 h13 h14 h15, invmix_comp3 _ _ _ _ h12 h13 h14 h15⟩

/-! ## Boundedness of the round operations -/

theorem mul3_lt {x : Nat} (hx : x < 256) : mul3 x < 256 :=
  xor_lt_256 (xtime_lt x) hx

theorem mul2_lt (x : Nat) : mul2 x < 256 := xtime_lt x

theorem subBytes_bounded (s : Block) : (subBytes s).Bounded := by
  refine ⟨?_, ?_, ?_, ?_, ?_, ?_, ?_, ?_, ?_, ?_, ?_, ?_, ?_, ?_, ?_, ?_⟩ <;>
    exact sbox_lt _

theorem shiftRows_bounded {s : Block} (hs : s.Bounded) : (shiftRows s).Bounded := by
  obtain ⟨h0, h1, h2, h3, h4, h5, h6, h7, h8, h9, h10, h11, h12, h13, h14, h15⟩ := hs
  exact ⟨h0, h5, h10, h15, h4, h9, h14, h3, h8, h13, h2, h7, h12, h1, h6, h11⟩

theorem mixColumns_bounded {s : Block} (hs : s.Bounded) : (mixColumns s).Bounded := by
  obtain ⟨h0, h1, h2, h3, h4, h5, h6, h7, h8, h9, h10, h11, h12, h13, h14, h15⟩ := hs
  refine ⟨?_, ?_, ?_, ?_, ?_, ?_, ?_, ?_, ?_, ?_, ?_, ?_, ?_, ?_, ?_, ?_⟩ <;>
    simp only [mixColumns, mixCol] <;>
    first
      | exact xor_lt_256 (xor_lt_256 (xor_lt_256 (mul2_lt _) (mul3_lt (by assumption))) (by assumption)) (by assumption)
      | exact xor_lt_256 (xor_lt_256 (xor_lt_256 (by assumption) (mul2_lt _)) (mul3_lt (by assumption))) (by assumption)
      | exact xor_lt_256 (xor_lt_256 (xor_lt_256 (by assumption) (by assumption)) (mul2_lt _)) (mul3_lt (by assumption))
      | exact xor_lt_256 (xor_lt_256 (xor_lt_256 (mul3_lt (by assumption)) (by assumption)) (by assumption)) (mul2_lt _)

theorem addRoundKey_bounded {k s : Block} (hk : k.Bounded) (hs : s.Bounded) :
    (addRoundKey k s).Bounded := by
  obtain ⟨g0, g1, g2, g3, g4, g5, g6, g7, g8, g9, g10, g11, g12, g13, g14, g15⟩ := hk
  obtain ⟨h0, h1, h2, h3, h4, h5, h6, h7, h8, h9, h10, h11, h12, h13, h14, h15⟩ := hs
  exact ⟨xor_lt_256 h0 g0, xor_lt_256 h1 g1, xor_lt_256 h2 g2, xor_lt_256 h3 g3,
    xor_lt_256 h4 g4, xor_lt_256 h5 g5, xor_lt_256 h6 g6, xor_lt_256 h7 g7,
    xor_lt_256 h8 g8, xor_lt_256 h9 g9, xor_lt_256 h10 g10, xor_lt_256 h11 g11,
    xor_lt_256 h12 g12, xor_lt_256 h13 g13, xor_lt_256 h14 g14, xor_lt_256 h15 g15⟩

/-! ## Step inverse lemmas -/

theorem invShiftRows_shiftRows (s : Block) : invShiftRows (shiftRows s) = s := rfl

theorem invSubBytes_subBytes (s : Block) (hs : s.Bounded) : invSubBytes (subBytes s) = s := by
  obtain ⟨b0, b1, b2, b3, b4, b5, b6, b7, b8, b9, b10, b11, b12, b13, b14, b15⟩ := s
  obtain ⟨h0, h1, h2, h3, h4, h5, h6, h7, h8, h9, h10, h11, h12, h13, h14, h15⟩ := hs
  simp only [subBytes, invSubBytes, Block.mk.injEq]
  exact ⟨invSbox_sbox _ h0, invSbox_sbox _ h1, invSbox_sbox _ h2, invSbox_sbox _ h3,
    invSbox_sbox _ h4, invSbox_sbox _ h5, invSbox_sbox _ h6, invSbox_sbox _ h7,
    invSbox_sbox _ h8, invSbox_sbox _ h9, invSbox_sbox _ h10, invSbox_sbox _ h11,
    invSbox_sbox _ h12, invSbox_sbox _ h13, invSbox_sbox _ h14, invSbox_sbox _ h15⟩

theorem addRoundKey_addRoundKey (k s : Block) : addRoundKey k (addRoundKey k s) = s := by
  obtain ⟨b0, b1, b2, b3, b4, b5, b6, b7, b8, b9, b10, b11, b12, b13, b14, b15⟩ := s
  simp [addRoundKey, Nat.xor_assoc]

/-! ## AES-128 key expansion (FIPS-197 §5.2) -/

def Word : Type := Nat × Nat × Nat × Nat
deriving DecidableEq

def rotWord (w : Word) : Word := (w.2.1, w.2.2.1, w.2.2.2, w.1)

def subWord (w : Word) : Word := (sbox w.1, sbox w.2.1, sbox w.2.2.1, sbox w.2.2.2)

def wordXor (a b : Word) : Word :=
  (a.1 ^^^ b.1, a.2.1 ^^^ b.2.1, a.2.2.1 ^^^ b.2.2.1, a.2.2.2 ^^^ b.2.2.2)

/-- Round constants for AES-128 key expansion. -/
def rcon : List Nat := [1, 2, 4, 8, 16, 32, 64, 128, 27, 54]

/-- Append the next 32-bit word of the expanded key schedule. -/
def ksNext (ws : List Word) : List Word :=
  let i := ws.length
  let prev := ws.getD (i - 1) (0, 0, 0, 0)
  let prev4 := ws.getD (i - 4) (0, 0, 0, 0)
  let temp :=
    if i % 4 == 0 then
      let r := subWord (rotWord prev)
      (r.1 ^^^ rcon.getD (i / 4 - 1) 0, r.2.1, r.2.2.1, r.2.2.2)
    else prev
  ws ++ [wordXor prev4 temp]

def ksIter : Nat → List Word → List Word
  | 0, ws => ws
  | n + 1, ws => ksIter n (ksNext ws)

/-- The 44 words of the AES-128 key schedule for a 16-byte key. -/
def keyWords (key : List Nat) : List Word :=
  ksIter 40
    [(key.getD 0 0, key.getD 1 0, key.getD 2 0, key.getD 3 0),
     (key.getD 4 0, key.getD 5 0, key.getD 6 0, key.getD 7 0),
     (key.getD 8 0, key.getD 9 0, key.getD 10 0, key.getD 11 0),
     (key.getD 12 0, key.getD 13 0, key.getD 14 0, key.getD 15 0)]

/-- Round key `r` as a state block (words are columns). -/
def roundKey (ws : List Word) (r : Nat) : Block :=
  let w0 := ws.getD (4 * r) (0, 0, 0, 0)
  let w1 := ws.getD (4 * r + 1) (0, 0, 0, 0)
  let w2 := ws.getD (4 * r + 2) (0, 0, 0, 0)
  let w3 := ws.getD (4 * r + 3) (0, 0, 0, 0)
  ⟨w0.1, w0.2.1, w0.2.2.1, w0.2.2.2,
   w1.1, w1.2.1, w1.2.2.1, w1.2.2.2,
   w2.1, w2.2.1, w2.2.2.1, w2.2.2.2,
   w3.1, w3.2.1, w3.2.2.1, w3.2.2.2⟩

/-! ## The AES-128 block cipher -/

/-- The middle rounds of the cipher (rounds 1..9 for AES-128). -/
def encRounds : List Block → Block → Block
  | [], s => s
  | k :: ks, s => encRounds ks (addRoundKey k (mixColumns (shiftRows (subBytes s))))

/-- The middle rounds of the inverse cipher, consuming round keys from
the last middle round down to the first. -/
def decRounds : List Block → Block → Block
  | [], s => s
  | k :: ks, s => decRounds ks (invSubBytes (invShiftRows (invMixColumns (addRoundKey k s))))

def encryptBlock (k0 : Block) (mid : List Block) (kf : Block) (x : Block) : Block :=
  addRoundKey kf (shiftRows (subBytes (encRounds mid (addRoundKey k0 x))))

def decryptBlock (k0 : Block) (mid : List Block) (kf : Block) (y : Block) : Block :=
  addRoundKey k0 (decRounds mid.reverse (invSubBytes (invShiftRows (addRoundKey kf y))))

theorem encRounds_bounded : ∀ (ks : List Block) (s : Block),
    (∀ k ∈ ks, k.Bounded) → s.Bounded → (encRounds ks s).Bounded := by
  intro ks
  induction ks with
  | nil =>
    intro s _ hs
    exact hs
  | cons k t ih =>
    intro s hk hs
    exact ih _ (fun k' h' => hk k' (List.mem_cons_of_mem _ h'))
      (addRoundKey_bounded (hk k (List.mem_cons_self _ _))
        (mixColumns_bounded (shiftRows_bounded (subBytes_bounded s))))

theorem decRounds_append (xs : List Block) (k : Block) (s : Block) :
    decRounds (xs ++ [k]) s =
      invSubBytes (invShiftRows (invMixColumns (addRoundKey k (decRounds xs s)))) := by
  induction xs generalizing s with
  | nil => rfl
  | cons x t ih => exact ih _

theorem decRounds_encRounds : ∀ (ks : List Block) (s : Block),
    (∀ k ∈ ks, k.Bounded) → s.Bounded → decRounds ks.reverse (encRounds ks s) = s := by
  intro ks
  induction ks with
  | nil =>
    intro s _ _
    rfl
  | cons k t ih =>
    intro s hk hs
    have hkb : k.Bounded := hk k (List.mem_cons_self _ _)
    have htb : ∀ k' ∈ t, k'.Bounded := fun k' h' => hk k' (List.mem_cons_of_mem _ h')
    have hsb : (addRoundKey k (mixColumns (shiftRows (subBytes s)))).Bounded :=
      addRoundKey_bounded hkb (mixColumns_bounded (shiftRows_bounded (subBytes_bounded s)))
    rw [List.reverse_cons]
    show decRounds (t.reverse ++ [k])
      (encRounds t (addRoundKey k (mixColumns (shiftRows (subBytes s))))) = s
    rw [decRounds_append, ih _ htb hsb, addRoundKey_addRoundKey,
      invMixColumns_mixColumns _ (shiftRows_bounded (subBytes_bounded s)),
      invShiftRows_shiftRows, invSubBytes_subBytes _ hs]

theorem decryptBlock_encryptBlock (k0 : Block) (mid : List Block) (kf : Block) (x : Block)
    (hk0 : k0.Bounded) (hmid : ∀ k ∈ mid, k.Bounded) (hx : x.Bounded) :
    decryptBlock k0 mid kf (encryptBlock k0 mid kf x) = x := by
  unfold encryptBlock decryptBlock
  rw [addRoundKey_addRoundKey, invShiftRows_shiftRows,
    invSubBytes_subBytes _ (encRounds_bounded mid _ hmid (addRoundKey_bounded hk0 hx)),
    decRounds_encRounds mid _ hmid (addRoundKey_bounded hk0 hx),
    addRoundKey_addRoundKey]

/-! ## ECB mode over byte lists -/

def listOfBlock (b : Block) : List Nat :=
  [b.s0, b.s1, b.s2, b.s3, b.s4, b.s5, b.s6, b.s7,
   b.s8, b.s9, b.s10, b.s11, b.s12, b.s13, b.s14, b.s15]

/-- Split a byte list into 16-byte state blocks (a trailing fragment
shorter than one block is dropped; callers only pass multiples of 16). -/
def bytesToBlocks : List Nat → List Block
  | b0 :: b1 :: b2 :: b3 :: b4 :: b5 :: b6 :: b7 ::
    b8 :: b9 :: b10 :: b11 :: b12 :: b13 :: b14 :: b15 :: rest =>
      ⟨b0, b1, b2, b3, b4, b5, b6, b7, b8, b9, b10, b11, b12, b13, b14, b15⟩ ::
        bytesToBlocks rest
  | _ => []

def blocksToBytes : List Block → List Nat
  | [] => []
  | b :: rest => listOfBlock b ++ blocksToBytes rest

theorem bytesToBlocks_blocksToBytes (bs : List Block) :
    bytesToBlocks (blocksToBytes bs) = bs := by
  induction bs with
  | nil => rfl
  | cons b rest ih =>
    obtain ⟨b0, b1, b2, b3, b4, b5, b6, b7, b8, b9, b10, b11, b12, b13, b14, b15⟩ := b
    show (⟨b0, b1, b2, b3, b4, b5, b6, b7, b8, b9, b10, b11, b12, b13, b14, b15⟩ : Block) ::
        bytesToBlocks (blocksToBytes rest) = _
    rw [ih]

theorem blocksToBytes_bytesToBlocks (l : List Nat) (h : l.length % 16 = 0) :
    blocksToBytes (bytesToBlocks l) = l := by
  induction l using bytesToBlocks.induct with
  | case1 b0 b1 b2 b3 b4 b5 b6 b7 b8 b9 b10 b11 b12 b13 b14 b15 rest ih =>
    have hr : rest.length % 16 = 0 := by
      simp only [List.length_cons] at h
      omega
    show listOfBlock ⟨b0, b1, b2, b3, b4, b5, b6, b7, b8, b9, b10, b11, b12, b13, b14, b15⟩ ++
        blocksToBytes (bytesToBlocks rest) = _
    rw [ih hr]
    rfl
  | case2 t hne =>
    rcases t with _ | ⟨c0, _ | ⟨c1, _ | ⟨c2, _ | ⟨c3, _ | ⟨c4, _ | ⟨c5, _ | ⟨c6, _ | ⟨c7, _ | ⟨c8, _ | ⟨c9, _ | ⟨c10, _ | ⟨c11, _ | ⟨c12, _ | ⟨c13, _ | ⟨c14, _ | ⟨c15, rest⟩⟩⟩⟩⟩⟩⟩⟩⟩⟩⟩⟩⟩⟩⟩⟩ <;>
      first
        | rfl
        | (exfalso; simp only [List.length_cons, List.length_nil] at h; omega)
        | exact absurd rfl (hne c0 c1 c2 c3 c4 c5 c6 c7 c8 c9 c10 c11 c12 c13 c14 c15 rest)

theorem bytesToBlocks_bounded (l : List Nat) (h : ∀ x ∈ l, x < 256) :
    ∀ blk ∈ bytesToBlocks l, blk.Bounded := by
  induction l using bytesToBlocks.induct with
  | case1 b0 b1 b2 b3 b4 b5 b6 b7 b8 b9 b10 b11 b12 b13 b14 b15 rest ih =>
    intro blk hblk
    rw [show bytesToBlocks (b0 :: b1 :: b2 :: b3 :: b4 :: b5 :: b6 :: b7 ::
        b8 :: b9 :: b10 :: b11 :: b12 :: b13 :: b14 :: b15 :: rest) =
        (⟨b0, b1, b2, b3, b4, b5, b6, b7, b8, b9, b10, b11, b12, b13, b14, b15⟩ : Block) ::
        bytesToBlocks rest from rfl, List.mem_cons] at hblk
    rcases hblk with hblk | hblk
    · subst hblk
      refine ⟨?_, ?_, ?_, ?_, ?_, ?_, ?_, ?_, ?_, ?_, ?_, ?_, ?_, ?_, ?_, ?_⟩ <;>
        exact h _ (by simp)
    · exact ih (fun x hx => h x (by simp [hx])) blk hblk
  | case2 t hne =>
    intro blk hblk
    rcases t with _ | ⟨c0, _ | ⟨c1, _ | ⟨c2, _ | ⟨c3, _ | ⟨c4, _ | ⟨c5, _ | ⟨c6, _ | ⟨c7, _ | ⟨c8, _ | ⟨c9, _ | ⟨c10, _ | ⟨c11, _ | ⟨c12, _ | ⟨c13, _ | ⟨c14, _ | ⟨c15, rest⟩⟩⟩⟩⟩⟩⟩⟩⟩⟩⟩⟩⟩⟩⟩⟩ <;>
      first
        | exact absurd rfl (hne c0 c1 c2 c3 c4 c5 c6 c7 c8 c9 c10 c11 c12 c13 c14 c15 rest)
        | simp [bytesToBlocks] at hblk

theorem blocksToBytes_bounded (bs : List Block) (h : ∀ blk ∈ bs, blk.Bounded) :
    ∀ x ∈ blocksToBytes bs, x < 256 := by
  induction bs with
  | nil =>
    intro x hx
    simp [blocksToBytes] at hx
  | cons b rest ih =>
    intro x hx
    rw [show blocksToBytes (b :: rest) = listOfBlock b ++ blocksToBytes rest from rfl,
      List.mem_append] at hx
    rcases hx with hx | hx
    · obtain ⟨h0, h1, h2, h3, h4, h5, h6, h7, h8, h9, h10, h11, h12, h13, h14, h15⟩ :=
        h b (List.mem_cons_self _ _)
      simp only [listOfBlock, List.mem_cons, List.not_mem_nil, or_false] at hx
      rcases hx with rfl | rfl | rfl | rfl | rfl | rfl | rfl | rfl |
        rfl | rfl | rfl | rfl | rfl | rfl | rfl | rfl <;> assumption
    · exact ih (fun blk hblk => h blk (List.mem_cons_of_mem _ hblk)) x hx

theorem blocksToBytes_length_mod (bs : List Block) :
    (blocksToBytes bs).length % 16 = 0 := by
  induction bs with
  | nil => rfl
  | cons b rest ih =>
    rw [show blocksToBytes (b :: rest) = listOfBlock b ++ blocksToBytes rest from rfl]
    simp only [List.length_append, listOfBlock, List.length_cons, List.length_nil]
    omega

/-- ECB encryption of a byte list whose length is a multiple of 16. -/
def ecbEncryptBytes (k0 : Block) (mid : List Block) (kf : Block) (l : List Nat) : List Nat :=
  blocksToBytes ((bytesToBlocks l).map (encryptBlock k0 mid kf))

/-- ECB decryption of a byte list whose length is a multiple of 16. -/
def ecbDecryptBytes (k0 : Block) (mid : List Block) (kf : Block) (l : List Nat) : List Nat :=
  blocksToBytes ((bytesToBlocks l).map (decryptBlock k0 mid kf))

theorem ecb_roundtrip (k0 : Block) (mid : List Block) (kf : Block) (l : List Nat)
    (hk0 : k0.Bounded) (hmid : ∀ k ∈ mid, k.Bounded)
    (hlen : l.length % 16 = 0) (hb : ∀ x ∈ l, x < 256) :
    ecbDecryptBytes k0 mid kf (ecbEncryptBytes k0 mid kf l) = l := by
  unfold ecbEncryptBytes ecbDecryptBytes
  rw [bytesToBlocks_blocksToBytes, List.map_map]
  have hmap : ((bytesToBlocks l).map (decryptBlock k0 mid kf ∘ encryptBlock k0 mid kf)) =
      (bytesToBlocks l).map id :=
    List.map_congr_left fun blk hblk =>
      decryptBlock_encryptBlock k0 mid kf blk hk0 hmid (bytesToBlocks_bounded l hb blk hblk)
  rw [hmap, List.map_id, blocksToBytes_bytesToBlocks l hlen]

/-! ## PKCS7 padding (block size 16) -/

def pkcs7pad (l : List Nat) : List Nat :=
  l ++ List.replicate (16 - l.length % 16) (16 - l.length % 16)

def pkcs7unpad (l : List Nat) : Option (List Nat) :=
  if l.length = 0 then none
  else if l.length % 16 ≠ 0 then none
  else
    let k := l.getLast?.getD 0
    if k < 1 ∨ 16 < k ∨ l.length < k then none
    else if l.drop (l.length - k) = List.replicate k k then some (l.take (l.length - k))
    else none

theorem pkcs7pad_length_mod (l : List Nat) : (pkcs7pad l).length % 16 = 0 := by
  simp only [pkcs7pad, List.length_append, List.length_replicate]
  omega

theorem pkcs7pad_ne_nil (l : List Nat) : pkcs7pad l ≠ [] := by
  simp only [pkcs7pad]
  intro hcon
  have := congrArg List.length hcon
  simp only [List.length_append, List.length_replicate, List.length_nil] at this
  omega

theorem pkcs7pad_bounded (l : List Nat) (h : ∀ x ∈ l, x < 256) :
    ∀ x ∈ pkcs7pad l, x < 256 := by
  intro x hx
  simp only [pkcs7pad, List.mem_append] at hx
  rcases hx with hx | hx
  · exact h x hx
  · have := List.eq_of_mem_replicate hx
    omega

theorem pkcs7unpad_pkcs7pad (l : List Nat) : pkcs7unpad (pkcs7pad l) = some l := by
  have hk1 : 1 ≤ 16 - l.length % 16 := by omega
  have hlen : (pkcs7pad l).length = l.length + (16 - l.length % 16) := by
    simp [pkcs7pad]
  have hlast : (pkcs7pad l).getLast? = some (16 - l.length % 16) := by
    unfold pkcs7pad
    rw [List.getLast?_append, List.getLast?_replicate]
    simp only [if_neg (by omega : ¬(16 - l.length % 16 = 0))]
    rfl
  unfold pkcs7unpad
  rw [if_neg (by rw [hlen]; omega : ¬(pkcs7pad l).length = 0),
    if_neg (by push_neg; exact pkcs7pad_length_mod l)]
  simp only [hlast, Option.getD_some]
  rw [if_neg (by rw [hlen]; omega),
    if_pos, hlen]
  · congr 1
    have heq : l.length + (16 - l.length % 16) - (16 - l.length % 16) = l.length := by omega
    rw [heq]
    unfold pkcs7pad
    exact List.take_left l _
  · rw [hlen]
    have heq : l.length + (16 - l.length % 16) - (16 - l.length % 16) = l.length := by omega
    rw [heq]
    unfold pkcs7pad
    exact List.drop_left l _

/-! ## Base64 (RFC 4648, with padding, as Python `base64.b64encode/b64decode`) -/

/-- ASCII codes of the standard base64 alphabet. -/
def b64alphabet : List Nat :=
  [65, 66, 67, 68, 69, 70, 71, 72, 73, 74, 75, 76, 77, 78, 79, 80,
   81, 82, 83, 84, 85, 86, 87, 88, 89, 90,
   97, 98, 99, 100, 101, 102, 103, 104, 105, 106, 107, 108, 109, 110,
   111, 112, 113, 114, 115, 116, 117, 118, 119, 120, 121, 122,
   48, 49, 50, 51, 52, 53, 54, 55, 56, 57, 43, 47]

def encode6 (v : Nat) : Nat := b64alphabet.getD (v % 64) 0

def decode6 (c : Nat) : Option Nat := b64alphabet.findIdx? (fun x => x == c)

def b64encode : List Nat → List Nat
  | [] => []
  | [a] => [encode6 (a / 4), encode6 ((a % 4) * 16), 61, 61]
  | [a, b] => [encode6 (a / 4), encode6 ((a % 4) * 16 + b / 16), encode6 ((b % 16) * 4), 61]
  | a :: b :: c :: rest =>
      encode6 (a / 4) :: encode6 ((a % 4) * 16 + b / 16) ::
        encode6 ((b % 16) * 4 + c / 64) :: encode6 (c % 64) :: b64encode rest

def b64decode : List Nat → Option (List Nat)
  | [] => some []
  | c1 :: c2 :: c3 :: c4 :: rest =>
      match decode6 c1, decode6 c2 with
      | some v1, some v2 =>
        if c3 = 61 then
          if c4 = 61 ∧ rest = [] then some [v1 * 4 + v2 / 16]
          else none
        else
          match decode6 c3 with
          | some v3 =>
            if c4 = 61 then
              if rest = [] then some [v1 * 4 + v2 / 16, (v2 % 16) * 16 + v3 / 4]
              else none
            else
              match decode6 c4 with
              | some v4 =>
                (b64decode rest).map
                  (fun tail => (v1 * 4 + v2 / 16) :: ((v2 % 16) * 16 + v3 / 4) ::
                    ((v3 % 4) * 64 + v4) :: tail)
              | none => none
          | none => none
      | _, _ => none
  | _ => none

set_option maxRecDepth 8192 in
theorem decode6_encode6 : ∀ v : Fin 64, decode6 (encode6 v.val) = some v.val := by
  decide

set_option maxRecDepth 8192 in
theorem encode6_ne_61 : ∀ v : Fin 64, encode6 v.val ≠ 61 := by
  decide

theorem decode6_encode6_lt (v : Nat) (h : v < 64) : decode6 (encode6 v) = some v :=
  decode6_encode6 ⟨v, h⟩

theorem encode6_ne_61_lt (v : Nat) (h : v < 64) : encode6 v ≠ 61 :=
  encode6_ne_61 ⟨v, h⟩

theorem b64_roundtrip : ∀ l : List Nat, (∀ x ∈ l, x < 256) → b64decode (b64encode l) = some l := by
  intro l
  induction l using b64encode.induct with
  | case1 =>
    intro _
    simp [b64encode, b64decode]
  | case2 a =>
    intro h
    have ha : a < 256 := h a (by simp)
    simp only [b64encode, b64decode,
      decode6_encode6_lt (a / 4) (by omega),
      decode6_encode6_lt ((a % 4) * 16) (by omega)]
    simp only [and_self, if_true, Option.some.injEq, List.cons.injEq, and_true]
    omega
  | case3 a b =>
    intro h
    have ha : a < 256 := h a (by simp)
    have hb : b < 256 := h b (by simp)
    simp only [b64encode, b64decode,
      decode6_encode6_lt (a / 4) (by omega),
      decode6_encode6_lt ((a % 4) * 16 + b / 16) (by omega),
      if_neg (encode6_ne_61_lt ((b % 16) * 4) (by omega)),
      decode6_encode6_lt ((b % 16) * 4) (by omega)]
    simp only [and_self, if_true, Option.some.injEq, List.cons.injEq, and_true]
    omega
  | case4 a b c rest ih =>
    intro h
    have ha : a < 256 := h a (by simp)
    have hb : b < 256 := h b (by simp)
    have hc : c < 256 := h c (by simp)
    have hrest : ∀ x ∈ rest, x < 256 := fun x hx => h x (by simp [hx])
    simp only [b64encode, b64decode,
      decode6_encode6_lt (a / 4) (by omega),
      decode6_encode6_lt ((a % 4) * 16 + b / 16) (by omega),
      if_neg (encode6_ne_61_lt ((b % 16) * 4 + c / 64) (by omega)),
      decode6_encode6_lt ((b % 16) * 4 + c / 64) (by omega),
      if_neg (encode6_ne_61_lt (c % 64) (by omega)),
      decode6_encode6_lt (c % 64) (by omega),
      ih hrest]
    simp only [Option.map_some', Option.some.injEq, List.cons.injEq, and_true]
    refine ⟨by omega, by omega, by omega⟩

theorem b64encode_ne_nil (l : List Nat) (h : l ≠ []) : b64encode l ≠ [] := by
  induction l using b64encode.induct with
  | case1 => exact absurd rfl h
  | case2 a => simp [b64encode]
  | case3 a b => simp [b64encode]
  | case4 a b c rest ih => simp [b64encode]

/-! ## UTF-8 (strict, as Python `str.encode` / `bytes.decode`) -/

/-- A Unicode scalar value: a code point that UTF-8 can encode
(excludes the surrogate range). -/
def ValidScalar (c : Nat) : Prop :=
  c < 1114112 ∧ ¬(55296 ≤ c ∧ c < 57344)

instance (c : Nat) : Decidable (ValidScalar c) := by
  unfold ValidScalar
  infer_instance

def utf8EncodeChar (c : Nat) : List Nat :=
  if c < 128 then [c]
  else if c < 2048 then [192 + c / 64, 128 + c % 64]
  else if c < 65536 then [224 + c / 4096, 128 + (c / 64) % 64, 128 + c % 64]
  else [240 + c / 262144, 128 + (c / 4096) % 64, 128 + (c / 64) % 64, 128 + c % 64]

def utf8Encode : List Nat → List Nat
  | [] => []
  | c :: rest => utf8EncodeChar c ++ utf8Encode rest

/-- Strict UTF-8 decoding of one leading character: rejects
continuation-byte errors, overlong forms, surrogates and out-of-range
leads, like Python `bytes.decode`.  Returns the code point and the
remaining bytes. -/
def utf8DecodeChar (l : List Nat) : Option (Nat × List Nat) :=
  match l with
  | [] => none
  | b0 :: rest =>
    if b0 < 128 then some (b0, rest)
    else if 194 ≤ b0 ∧ b0 < 224 then
      match rest with
      | b1 :: rest2 =>
        if 128 ≤ b1 ∧ b1 < 192 then
          some ((b0 - 192) * 64 + (b1 - 128), rest2)
        else none
      | [] => none
    else if 224 ≤ b0 ∧ b0 < 240 then
      match rest with
      | b1 :: b2 :: rest2 =>
        if (128 ≤ b1 ∧ b1 < 192) ∧ (128 ≤ b2 ∧ b2 < 192) ∧
            (b0 ≠ 224 ∨ 160 ≤ b1) ∧ (b0 ≠ 237 ∨ b1 < 160) then
          some ((b0 - 224) * 4096 + (b1 - 128) * 64 + (b2 - 128), rest2)
        else none
      | _ => none
    else if 240 ≤ b0 ∧ b0 < 245 then
      match rest with
      | b1 :: b2 :: b3 :: rest2 =>
        if (128 ≤ b1 ∧ b1 < 192) ∧ (128 ≤ b2 ∧ b2 < 192) ∧ (128 ≤ b3 ∧ b3 < 192) ∧
            (b0 ≠ 240 ∨ 144 ≤ b1) ∧ (b0 ≠ 244 ∨ b1 < 144) then
          some ((b0 - 240) * 262144 + (b1 - 128) * 4096 + (b2 - 128) * 64 + (b3 - 128), rest2)
        else none
      | _ => none
    else none

set_option maxRecDepth 8192 in
theorem utf8DecodeChar_shrink (l : List Nat) (p : Nat × List Nat)
    (h : utf8DecodeChar l = some p) : p.2.length < l.length := by
  unfold utf8DecodeChar at h
  repeat' split at h
  all_goals cases h
  all_goals simp only [List.length_cons]
  all_goals omega

/-- Strict UTF-8 decoding of a whole byte list (the fuel argument is
the list length; one character consumes at least one byte). -/
def utf8DecodeLoop : Nat → List Nat → Option (List Nat)
  | _, [] => some []
  | 0, _ :: _ => none
  | fuel + 1, b0 :: rest =>
    match utf8DecodeChar (b0 :: rest) with
    | some (c, rem) => (utf8DecodeLoop fuel rem).map (c :: ·)
    | none => none

def utf8Decode (l : List Nat) : Option (List Nat) := utf8DecodeLoop l.length l

theorem utf8DecodeLoop_nil (f : Nat) : utf8DecodeLoop f [] = some [] := by
  cases f <;> rfl

theorem utf8DecodeLoop_fuel : ∀ (f1 : Nat) (f2 : Nat) (l : List Nat),
    l.length ≤ f1 → l.length ≤ f2 → utf8DecodeLoop f1 l = utf8DecodeLoop f2 l := by
  intro f1
  induction f1 with
  | zero =>
    intro f2 l h1 _
    have : l = [] := List.eq_nil_of_length_eq_zero (by omega)
    subst this
    rw [utf8DecodeLoop_nil, utf8DecodeLoop_nil]
  | succ g ih =>
    intro f2 l h1 h2
    match l with
    | [] => rw [utf8DecodeLoop_nil, utf8DecodeLoop_nil]
    | b0 :: rest =>
      match f2 with
      | 0 => simp at h2
      | g2 + 1 =>
        show (match utf8DecodeChar (b0 :: rest) with
          | some (c, rem) => (utf8DecodeLoop g rem).map (c :: ·)
          | none => none) =
          (match utf8DecodeChar (b0 :: rest) with
          | some (c, rem) => (utf8DecodeLoop g2 rem).map (c :: ·)
          | none => none)
        rcases hx : utf8DecodeChar (b0 :: rest) with _ | ⟨c, rem⟩
        · rfl
        · have hs := utf8DecodeChar_shrink _ _ hx
          simp only [List.length_cons] at hs h1 h2
          show (utf8DecodeLoop g rem).map (c :: ·) = (utf8DecodeLoop g2 rem).map (c :: ·)
          rw [ih g2 rem (by omega) (by omega)]

theorem utf8Decode_cons_eq (b0 : Nat) (rest : List Nat) :
    utf8Decode (b0 :: rest) =
      match utf8DecodeChar (b0 :: rest) with
      | some (c, rem) => (utf8Decode rem).map (c :: ·)
      | none => none := by
  show (match utf8DecodeChar (b0 :: rest) with
    | some (c, rem) => (utf8DecodeLoop rest.length rem).map (c :: ·)
    | none => none) = _
  rcases hx : utf8DecodeChar (b0 :: rest) with _ | ⟨c, rem⟩
  · rfl
  · have hs := utf8DecodeChar_shrink _ _ hx
    simp only [List.length_cons] at hs
    show (utf8DecodeLoop rest.length rem).map (c :: ·) = (utf8Decode rem).map (c :: ·)
    rw [utf8DecodeLoop_fuel rest.length rem.length rem (by omega) (by omega)]
    rfl

theorem utf8EncodeChar_bounded (c : Nat) (h : ValidScalar c) :
    ∀ b ∈ utf8EncodeChar c, b < 256 := by
  obtain ⟨h1, _⟩ := h
  intro b hb
  unfold utf8EncodeChar at hb
  split at hb
  · simp only [List.mem_singleton] at hb
    omega
  · split at hb
    · simp only [List.mem_cons, List.not_mem_nil, or_false] at hb
      rcases hb with rfl | rfl <;> omega
    · split at hb
      · simp only [List.mem_cons, List.not_mem_nil, or_false] at hb
        rcases hb with rfl | rfl | rfl <;> omega
      · simp only [List.mem_cons, List.not_mem_nil, or_false] at hb
        rcases hb with rfl | rfl | rfl | rfl <;> omega

theorem utf8Encode_bounded (l : List Nat) (h : ∀ c ∈ l, ValidScalar c) :
    ∀ b ∈ utf8Encode l, b < 256 := by
  induction l with
  | nil =>
    intro b hb
    simp [utf8Encode] at hb
  | cons c rest ih =>
    intro b hb
    rw [show utf8Encode (c :: rest) = utf8EncodeChar c ++ utf8Encode rest from rfl,
      List.mem_append] at hb
    rcases hb with hb | hb
    · exact utf8EncodeChar_bounded c (h c (by simp)) b hb
    · exact ih (fun x hx => h x (by simp [hx])) b hb

theorem utf8DecodeChar_encodeChar (c : Nat) (h : ValidScalar c) (rest : List Nat) :
    utf8DecodeChar (utf8EncodeChar c ++ rest) = some (c, rest) := by
  obtain ⟨h1, h2⟩ := h
  unfold utf8EncodeChar
  by_cases hc1 : c < 128
  · rw [if_pos hc1]
    show utf8DecodeChar (c :: rest) = _
    simp only [utf8DecodeChar]
    rw [if_pos hc1]
  · rw [if_neg hc1]
    by_cases hc2 : c < 2048
    · rw [if_pos hc2]
      show utf8DecodeChar ((192 + c / 64) :: ((128 + c % 64) :: rest)) = _
      simp only [utf8DecodeChar]
      rw [if_neg (by omega), if_pos (by omega), if_pos (by omega)]
      have he : (192 + c / 64 - 192) * 64 + (128 + c % 64 - 128) = c := by omega
      rw [he]
    · rw [if_neg hc2]
      by_cases hc3 : c < 65536
      · rw [if_pos hc3]
        show utf8DecodeChar ((224 + c / 4096) :: ((128 + c / 64 % 64) :: ((128 + c % 64) :: rest))) = _
        simp only [utf8DecodeChar]
        rw [if_neg (by omega), if_neg (by omega), if_pos (by omega), if_pos (by omega)]
        have he : (224 + c / 4096 - 224) * 4096 + (128 + c / 64 % 64 - 128) * 64 +
            (128 + c % 64 - 128) = c := by omega
        rw [he]
      · rw [if_neg hc3]
        show utf8DecodeChar ((240 + c / 262144) :: ((128 + c / 4096 % 64) ::
            ((128 + c / 64 % 64) :: ((128 + c % 64) :: rest)))) = _
        simp only [utf8DecodeChar]
        rw [if_neg (by omega), if_neg (by omega), if_neg (by omega), if_pos (by omega),
          if_pos (by omega)]
        have he : (240 + c / 262144 - 240) * 262144 + (128 + c / 4096 % 64 - 128) * 4096 +
            (128 + c / 64 % 64 - 128) * 64 + (128 + c % 64 - 128) = c := by omega
        rw [he]

theorem utf8EncodeChar_ne_nil (c : Nat) : utf8EncodeChar c ≠ [] := by
  unfold utf8EncodeChar
  split
  · simp
  · split
    · simp
    · split <;> simp

theorem utf8_roundtrip (l : List Nat) (h : ∀ c ∈ l, ValidScalar c) :
    utf8Decode (utf8Encode l) = some l := by
  induction l with
  | nil =>
    rw [show utf8Encode [] = [] from rfl, utf8Decode]
    rfl
  | cons c rest ih =>
    rw [show utf8Encode (c :: rest) = utf8EncodeChar c ++ utf8Encode rest from rfl]
    obtain ⟨b0, tail, htail⟩ :
        ∃ b0 tail, utf8EncodeChar c ++ utf8Encode rest = b0 :: tail := by
      rcases he : utf8EncodeChar c with _ | ⟨b0, t⟩
      · exact absurd he (utf8EncodeChar_ne_nil c)
      · exact ⟨b0, t ++ utf8Encode rest, by simp⟩
    rw [htail, utf8Decode_cons_eq, ← htail,
      utf8DecodeChar_encodeChar c (h c (by simp))]
    show Option.map (fun x => c :: x) (utf8Decode (utf8Encode rest)) = some (c :: rest)
    rw [ih (fun x hx => h x (by simp [hx]))]
    rfl

/-! ## The credential cipher (src/extwin/synthesis/aes.py) -/

/-- ASCII codes of the embedded base64 key constant
`key_str_b64 = "QWR2Z1ZNM1laZVFFY3B3Ug=="`. -/
def keyStrB64Codes : List Nat := "QWR2Z1ZNM1laZVFFY3B3Ug==".toList.map Char.toNat

/-- Key derivation from `encrypt_aes` / `decrypt_aes`: base64-decode the
embedded constant, interpret the bytes as a UTF-8 string, and UTF-8
encode that string back to the 16 AES key bytes. -/
def aesKeyBytes : List Nat :=
  match b64decode keyStrB64Codes with
  | some decoded =>
    match utf8Decode decoded with
    | some keyStr => utf8Encode keyStr
    | none => []
  | none => []

def aesK0 : Block := roundKey (keyWords aesKeyBytes) 0

def aesMid : List Block := (List.range 9).map (fun i => roundKey (keyWords aesKeyBytes) (i + 1))

def aesKF : Block := roundKey (keyWords aesKeyBytes) 10

/-- Model of `encrypt_aes` (src/extwin/synthesis/aes.py lines 6-28):
UTF-8 encode the plaintext, apply PKCS7 padding, encrypt with
AES-128-ECB under the embedded key, and base64-encode the ciphertext.
Strings are lists of Unicode code points; byte strings are lists of
byte values. -/
def encrypt_aes (plaintext : List Nat) : List Nat :=
  b64encode (ecbEncryptBytes aesK0 aesMid aesKF (pkcs7pad (utf8Encode plaintext)))

/-- Model of `decrypt_aes` (src/extwin/synthesis/aes.py lines 31-59):
empty input short-circuits to the empty string; otherwise base64-decode,
AES-128-ECB decrypt (the cipher rejects inputs that are not a whole
number of blocks), strip PKCS7 padding, and UTF-8 decode.  Failure paths
that raise in Python are `none`. -/
def decrypt_aes (ciphertext_b64 : List Nat) : Option (List Nat) :=
  if ciphertext_b64 = [] then some []
  else
    match b64decode ciphertext_b64 with
    | none => none
    | some ctBytes =>
      if ctBytes.length % 16 = 0 then
        match pkcs7unpad (ecbDecryptBytes aesK0 aesMid aesKF ctBytes) with
        | none => none
        | some ptBytes => utf8Decode ptBytes
      else none

set_option maxRecDepth 32768 in
theorem aesK0_bounded : aesK0.Bounded := by decide

set_option maxRecDepth 32768 in
theorem aesMid_bounded : ∀ k ∈ aesMid, k.Bounded := by decide

set_option maxRecDepth 32768 in
theorem aesKF_bounded : aesKF.Bounded := by decide

theorem decrypt_encrypt_aes (s : List Nat) (h : ∀ c ∈ s, ValidScalar c) :
    decrypt_aes (encrypt_aes s) = some s := by
  have hpadlen : (pkcs7pad (utf8Encode s)).length % 16 = 0 := pkcs7pad_length_mod _
  have hpadb : ∀ x ∈ pkcs7pad (utf8Encode s), x < 256 :=
    pkcs7pad_bounded _ (utf8Encode_bounded s h)
  have hroundtrip : ecbDecryptBytes aesK0 aesMid aesKF
      (ecbEncryptBytes aesK0 aesMid aesKF (pkcs7pad (utf8Encode s))) =
      pkcs7pad (utf8Encode s) :=
    ecb_roundtrip aesK0 aesMid aesKF _ aesK0_bounded aesMid_bounded hpadlen hpadb
  have hctb : ∀ x ∈ ecbEncryptBytes aesK0 aesMid aesKF (pkcs7pad (utf8Encode s)), x < 256 := by
    unfold ecbEncryptBytes
    apply blocksToBytes_bounded
    intro blk hblk
    simp only [List.mem_map] at hblk
    obtain ⟨blk0, _, rfl⟩ := hblk
    exact addRoundKey_bounded aesKF_bounded (shiftRows_bounded (subBytes_bounded _))
  have hclen : (ecbEncryptBytes aesK0 aesMid aesKF (pkcs7pad (utf8Encode s))).length % 16 = 0 :=
    blocksToBytes_length_mod _
  have hctnil : ecbEncryptBytes aesK0 aesMid aesKF (pkcs7pad (utf8Encode s)) ≠ [] := by
    intro hcon
    rw [hcon] at hroundtrip
    exact pkcs7pad_ne_nil (utf8Encode s) (by rw [← hroundtrip]; rfl)
  have hne : b64encode (ecbEncryptBytes aesK0 aesMid aesKF (pkcs7pad (utf8Encode s))) ≠ [] :=
    b64encode_ne_nil _ hctnil
  unfold encrypt_aes decrypt_aes
  rw [if_neg hne, b64_roundtrip _ hctb]
  show (if (ecbEncryptBytes aesK0 aesMid aesKF (pkcs7pad (utf8Encode s))).length % 16 = 0 then _
    else none) = some s
  rw [if_pos hclen, hroundtrip, pkcs7unpad_pkcs7pad]
  show utf8Decode (utf8Encode s) = some s
  exact utf8_roundtrip s h

/-- C1: round-trip of the credential cipher — for every UTF-8-encodable
string `s` (every list of Unicode scalar values, including the empty
string and multi-byte characters), `decrypt_aes (encrypt_aes s) = s`,
and `decrypt_aes` applied to the empty input string returns the empty
string without raising. -/
theorem C1_cipher_roundtrip :
    (∀ s : List Nat, (∀ c ∈ s, ValidScalar c) → decrypt_aes (encrypt_aes s) = some s) ∧
      decrypt_aes [] = some [] :=
  ⟨decrypt_encrypt_aes, rfl⟩

/-- Witness for C1 at a concrete multi-byte string (the code points of
"Héllo✓", which UTF-8-encodes through one-, two- and three-byte forms). -/
theorem C1_cipher_roundtrip_witness :
    decrypt_aes (encrypt_aes [72, 233, 108, 108, 111, 10003]) =
      some [72, 233, 108, 108, 111, 10003] :=
  C1_cipher_roundtrip.1 [72, 233, 108, 108, 111, 10003] (by decide)

/-! ## Application state (src/extwin/synthesis/app_state.py) -/

/-- Model of the process-wide `AppState` singleton.  Python attributes
that `__init__` does not create are `none` until first assigned; reading
such an attribute raises `AttributeError`. -/
structure AppState where
  token : Option String
  is_token_expired : Option Bool
  is_system_admin : Option Bool
deriving DecidableEq, Repr

/-- The state right after `AppState.__init__`: `token` is assigned
`None`, but neither `is_token_expired` nor `is_system_admin` is ever
assigned (they are first created in `DataManager._request` on a 401). -/
def initialAppState : AppState :=
  { token := none, is_token_expired := none, is_system_admin := none }

/-- `AppState.is_logged_in`: `bool(self.token)`. -/
def AppState.is_logged_in (st : AppState) : Bool :=
  match st.token with
  | some t => t ≠ ""
  | none => false

/-! ## The request gateway (src/extwin/synthesis/data_manager.py) -/

def HTTP_SUCCESS : Nat := 200

def BUSINESS_SUCCESS : Int := 200

def TOKEN_EXPIRED_CODE : Int := 401

def TOKEN_EXPIRED_MESSAGE : String := "Token has expired"

/-- The exception classes of data_manager.py (lines 88-109).  There is
no separate token-expired class: the 401 path raises
`BusinessLogicException` like any other business failure. -/
inductive DMException where
  | dataManagerError (msg : String)
  | httpException (msg : String)
  | businessLogicException (msg : String)
  | dataParsingException (msg : String)
deriving DecidableEq, Repr

/-- The Python class name of an exception — what `except SomeClass`
dispatch and `type(e)` can distinguish. -/
def DMException.kindName : DMException → String
  | .dataManagerError _ => "DataManagerError"
  | .httpException _ => "HTTPException"
  | .businessLogicException _ => "BusinessLogicException"
  | .dataParsingException _ => "DataParsingException"

/-- A decoded response envelope: the four fields of the uniform JSON
wrapper, each `none` when missing from the body.  `Res` is the type of
the `Result` payload. -/
structure Envelope (Res : Type) where
  errorCode : Option Int
  statusCode : Option Int
  messageCode : Option String
  result : Option Res
deriving DecidableEq, Repr

/-- One HTTP exchange as observed by `_request`: the status code, the
raw body text, and the parsed JSON envelope (`none` when the body does
not decode). -/
structure HttpResponse (Res : Type) where
  status : Nat
  bodyText : String
  body : Option (Envelope Res)
deriving DecidableEq, Repr

/-- Model of `DataManager._request` (data_manager.py lines 181-268) from
the point the response is available: HTTP status check, JSON parse
check, business-status decoding with the 401 token-expiry special case,
and extraction of the `Result` sub-object with default `emptyObj`
(modelling `json_data.get("Result", {})`).  Returns the updated
application state and either the result or the raised exception. -/
def request_model {Res : Type} (emptyObj : Res) (check_business_status : Bool)
    (resp : HttpResponse Res) (st : AppState) : AppState × Except DMException Res :=
  if resp.status ≠ HTTP_SUCCESS then
    (st, .error (.httpException ("HTTP " ++ toString resp.status ++ ": " ++ resp.bodyText)))
  else
    match resp.body with
    | none =>
      (st, .error (.dataParsingException ("Response is not valid JSON. Body: " ++ resp.bodyText)))
    | some env =>
      let error_code := env.errorCode.getD (-1)
      let status_code := env.statusCode.getD (-1)
      let message := env.messageCode.getD "Unknown error"
      if check_business_status then
        if error_code = TOKEN_EXPIRED_CODE then
          ({ st with is_token_expired := some true, is_system_admin := some false },
            .error (.businessLogicException TOKEN_EXPIRED_MESSAGE))
        else if error_code ≠ BUSINESS_SUCCESS ∨ status_code ≠ BUSINESS_SUCCESS then
          (st, .error (.businessLogicException ("Business Error ErrorCode=" ++
            toString error_code ++ " StatusCode=" ++ toString status_code ++ ": " ++ message)))
        else
          (st, .ok (env.result.getD emptyObj))
      else
        (st, .ok (env.result.getD emptyObj))

/-- The exception kind raised by a gateway call, if any. -/
def errKindName {Res : Type} (r : AppState × Except DMException Res) : Option String :=
  match r.2 with
  | .error e => some e.kindName
  | .ok _ => none

/-! ## Asset-type configuration and the data-access operations -/

structure AssetType where
  id : String
  name : String
  categoryListUrl : String
  categoryListUrlFree : String
  categoryListUrlPrivate : String
  categoryItemContentUrl : String
  categoryItemContentUrlFree : String
  categoryItemContentUrlPrivate : String
  thumbnailUrl : String
  typeInBrowser : String
  modelBusinessType : Int
deriving DecidableEq, Repr

def BASE_URL1 : String := "https://synthesis-server.extwin.com"

/-- The static `ASSET_TYPES` table (data_manager.py lines 19-85). -/
def ASSET_TYPES : List AssetType :=
  [{ id := "SimReady", name := "Sim Ready",
     categoryListUrl := BASE_URL1 ++ "/api/SimReady/GetCategoryList",
     categoryListUrlFree := BASE_URL1 ++ "/api/Global/GetCategoryList",
     categoryListUrlPrivate := BASE_URL1 ++ "/api/EnterpriseSimReady/GetCategoryList",
     categoryItemContentUrl := BASE_URL1 ++ "/api/SimReady/GetSimReadyList",
     categoryItemContentUrlFree := BASE_URL1 ++ "/api/Global/GetSimReadyList",
     categoryItemContentUrlPrivate := BASE_URL1 ++ "/api/EnterpriseSimReady/GetSimReadyList",
     thumbnailUrl := BASE_URL1 ++ "/api/Usd/SimReady/Image",
     typeInBrowser := "assets-simready", modelBusinessType := 1 },
   { id := "Model", name := "Model",
     categoryListUrl := BASE_URL1 ++ "/api/Model/GetCategoryList",
     categoryListUrlFree := BASE_URL1 ++ "/api/Global/GetModelCategoryList",
     categoryListUrlPrivate := BASE_URL1 ++ "/api/EnterpriseModel/GetCategoryList",
     categoryItemContentUrl := BASE_URL1 ++ "/api/Model/GetModelList",
     categoryItemContentUrlFree := BASE_URL1 ++ "/api/Global/GetModelList",
     categoryItemContentUrlPrivate := BASE_URL1 ++ "/api/EnterpriseModel/GetModelList",
     thumbnailUrl := BASE_URL1 ++ "/api/Usd/Model/Image",
     typeInBrowser := "assets-model", modelBusinessType := 2 },
   { id := "_3dGS", name := "3D Gauss Splatting",
     categoryListUrl := BASE_URL1 ++ "/api/Gs/GetCategoryList",
     categoryListUrlFree := BASE_URL1 ++ "/api/Global/GetGsCategoryList",
     categoryListUrlPrivate := BASE_URL1 ++ "/api/EnterpriseGs/GetCategoryList",
     categoryItemContentUrl := BASE_URL1 ++ "/api/Gs/GetGsList",
     categoryItemContentUrlFree := BASE_URL1 ++ "/api/Global/GetGsList",
     categoryItemContentUrlPrivate := BASE_URL1 ++ "/api/EnterpriseGs/GetGsList",
     thumbnailUrl := BASE_URL1 ++ "/api/Usd/Gs/Image",
     typeInBrowser := "assets-gs", modelBusinessType := 3 },
   { id := "Robot", name := "Robot",
     categoryListUrl := BASE_URL1 ++ "/api/Noumen/GetCategoryList",
     categoryListUrlFree := BASE_URL1 ++ "/api/Global/GetRobotCategoryList",
     categoryListUrlPrivate := BASE_URL1 ++ "/api/EnterpriseNoumen/GetCategoryList",
     categoryItemContentUrl := BASE_URL1 ++ "/api/Robot/GetRobotList",
     categoryItemContentUrlFree := BASE_URL1 ++ "/api/Global/GetRobotList",
     categoryItemContentUrlPrivate := BASE_URL1 ++ "/api/EnterpriseRobot/GetRobotList",
     thumbnailUrl := BASE_URL1 ++ "/api/Usd/Robot/Image",
     typeInBrowser := "assets-ontology", modelBusinessType := 5 },
   { id := "Scene", name := "Scene",
     categoryListUrl := BASE_URL1 ++ "/api/Scene/GetCategoryList",
     categoryListUrlFree := BASE_URL1 ++ "/api/Global/GetSceneCategoryList",
     categoryListUrlPrivate := BASE_URL1 ++ "/api/EnterpriseScene/GetCategoryList",
     categoryItemContentUrl := BASE_URL1 ++ "/api/Scene/GetSceneList",
     categoryItemContentUrlFree := BASE_URL1 ++ "/api/Global/GetSceneList",
     categoryItemContentUrlPrivate := BASE_URL1 ++ "/api/EnterpriseScene/GetSceneList",
     thumbnailUrl := BASE_URL1 ++ "/api/Usd/Scene/Image",
     typeInBrowser := "assets-scene", modelBusinessType := 6 }]

/-- Python-level failure of a data-access operation: either an
`AttributeError` from reading a never-assigned attribute, or one of the
typed DataManager exceptions. -/
inductive PyErr where
  | attributeError
  | dm (e : DMException)
deriving DecidableEq, Repr

/-- One category record of the flat category-list payload, as consumed
by the `IsSystem` filter (data_manager.py lines 301-302).  `isSystem` is
`none` when the field is missing (`x.get("IsSystem")` gives `None`). -/
structure CatRecord where
  categoryId : String
  isSystem : Option Bool
deriving DecidableEq, Repr

/-- The `Result` payload of a category-list response: either a JSON
array of category records, or anything that is not a list (this also
models the `{}` default used when `Result` is absent). -/
inductive CatPayload where
  | notAList
  | aList (records : List CatRecord)
deriving DecidableEq, Repr

/-- Model of `DataManager.get_category_tree` (data_manager.py lines
270-303).  `respond` maps the chosen URL to the HTTP exchange.  Returns
the list of URLs actually requested, the final application state, and
either the returned value (`none` models Python returning `None` on an
unknown asset type) or the raised error. -/
def get_category_tree (asset_type_id : String) (vis_tab : String) (st : AppState)
    (respond : String → HttpResponse CatPayload) :
    List String × AppState × Except PyErr (Option (List CatRecord)) :=
  match ASSET_TYPES.find? (fun t => t.id = asset_type_id) with
  | none => ([], st, .ok none)
  | some t =>
    let urlE : Except PyErr String :=
      if vis_tab = "Public" then
        match st.is_system_admin with
        | none => .error .attributeError
        | some isAdmin =>
          if isAdmin then .ok t.categoryListUrl
          else
            match st.is_token_expired with
            | none => .error .attributeError
            | some expired =>
              if !expired && st.is_logged_in then .ok t.categoryListUrlPrivate
              else .ok t.categoryListUrlFree
      else if vis_tab = "Private" then .ok t.categoryListUrlPrivate
      else .ok ""
    match urlE with
    | .error e => ([], st, .error e)
    | .ok url =>
      let (st2, res) := request_model CatPayload.notAList true (respond url) st
      match res with
      | .error e => ([url], st2, .error (.dm e))
      | .ok payload =>
        match payload with
        | .notAList => ([url], st2, .ok (some []))
        | .aList lst =>
          if lst.length < 1 then ([url], st2, .ok (some []))
          else
            let is_system : Bool := vis_tab == "Public"
            ([url], st2, .ok (some (lst.filter (fun x => x.isSystem = some is_system))))

/-- Model of `DataManager.get_asset_list` (data_manager.py lines
305-333).  The item payload is opaque (`Res`); the issued request is
recorded as the pair of URL and the `DataType` value written into the
query parameters. -/
def get_asset_list {Res : Type} (emptyObj : Res) (asset_type_id : String) (vis_tab : String)
    (st : AppState) (respond : String → HttpResponse Res) :
    List (String × Option Int) × AppState × Except PyErr (Option Res) :=
  match ASSET_TYPES.find? (fun t => t.id = asset_type_id) with
  | none => ([], st, .ok none)
  | some t =>
    let urlE : Except PyErr (String × Option Int) :=
      if vis_tab = "Public" then
        match st.is_system_admin with
        | none => .error .attributeError
        | some isAdmin =>
          if isAdmin then .ok (t.categoryItemContentUrl, some 1)
          else
            match st.is_token_expired with
            | none => .error .attributeError
            | some expired =>
              if !expired && st.is_logged_in then .ok (t.categoryItemContentUrlPrivate, some 1)
              else .ok (t.categoryItemContentUrlFree, some 1)
      else if vis_tab = "Private" then .ok (t.categoryItemContentUrlPrivate, some 2)
      else .ok ("", none)
    match urlE with
    | .error e => ([], st, .error e)
    | .ok req =>
      let (st2, res) := request_model emptyObj true (respond req.1) st
      match res with
      | .error e => ([req], st2, .error (.dm e))
      | .ok payload => ([req], st2, .ok (some payload))

/-! ## The pagination controller (src/extwin/synthesis/window.py) -/

/-- The pagination-related fields of `SynthesisAssetsWindow` (window.py
lines 353-387).  Items are opaque (`α`). -/
structure PageState (α : Type) where
  is_loading_more : Bool
  current_page_index : Int
  total_pages_from_api : Int
  total_count_from_api : Int
  no_more_assets_to_load : Bool
  all_loaded_asset_items : List α
  displayed_asset_items : List α
deriving DecidableEq, Repr

/-- The initial pagination state set in `__init__` (window.py lines
353-370). -/
def initialPageState (α : Type) : PageState α :=
  { is_loading_more := false, current_page_index := 1, total_pages_from_api := 1,
    total_count_from_api := 0, no_more_assets_to_load := false,
    all_loaded_asset_items := [], displayed_asset_items := [] }

/-- Model of `_reset_pagination_state` (window.py lines 1213-1233). -/
def reset_pagination_state {α : Type} (clear_all_local_data : Bool) (st : PageState α) :
    PageState α :=
  { st with
    current_page_index := 1,
    total_pages_from_api := 1,
    is_loading_more := false,
    no_more_assets_to_load := false,
    all_loaded_asset_items := if clear_all_local_data then [] else st.all_loaded_asset_items,
    displayed_asset_items := [] }

/-- What a `_load_assets_for_category` invocation observes once it is
past the in-flight guard: the static config lookup failed, or the API
call succeeded with the processed item list and the `PageCount` and
`Count` envelope fields, or some exception was raised. -/
inductive LoadInput (α : Type) where
  | configMissing
  | success (items : List α) (pageCount : Int) (count : Int)
  | failure
deriving DecidableEq, Repr

/-- How the invocation ended. -/
inductive LoadResult where
  | skipped
  | configError
  | loaded
  | errored
deriving DecidableEq, Repr

/-- Model of one `_load_assets_for_category(category_id, page_index)`
invocation (window.py lines 1339-1491): the in-flight guard at entry,
the config-error early return, the success-path bookkeeping
(total pages/count, append-vs-replace of the item caches, the
"no more data" flag), the exception path, and the `finally` release of
the in-flight flag. -/
def load_assets_step {α : Type} (st : PageState α) (page_index : Int) (input : LoadInput α) :
    PageState α × LoadResult :=
  if st.is_loading_more then (st, .skipped)
  else
    let st1 := { st with is_loading_more := true, current_page_index := page_index }
    match input with
    | .configMissing => ({ st1 with is_loading_more := false }, .configError)
    | .failure => ({ st1 with is_loading_more := false }, .errored)
    | .success items pageCount count =>
      let st2 := { st1 with
        total_pages_from_api := pageCount,
        total_count_from_api := count,
        all_loaded_asset_items := st1.all_loaded_asset_items ++ items,
        displayed_asset_items :=
          if page_index = 1 then items else st1.displayed_asset_items ++ items }
      let st3 :=
        if page_index ≥ pageCount ∨ count ≤ 0 then
          { st2 with no_more_assets_to_load := true }
        else st2
      ({ st3 with is_loading_more := false }, .loaded)

/-- N sequential successful fetches of pages 1..N, every response
reporting `PageCount = T` and `Count = C`; page `k` returns
`itemsFor k`. -/
def run_pages {α : Type} (st : PageState α) (itemsFor : Nat → List α) (T C : Int) :
    Nat → PageState α
  | 0 => st
  | n + 1 =>
    (load_assets_step (run_pages st itemsFor T C n) ((n : Int) + 1)
      (.success (itemsFor (n + 1)) T C)).1

/-! ## The search debounce (src/extwin/synthesis/window.py lines 768-797) -/

/-- `self._debounce_delay = 0.3  # seconds` (window.py line 387). -/
def debounce_delay : ℚ := 3 / 10

/-- Model of the debounced search: each keyword-change event at time `t`
cancels the pending timer and schedules a page-1 fetch at
`t + debounce_delay`; the timer fires only if no later event arrives
strictly before its fire time.  Events carry the search-field value they
set; a fired fetch reads the field, so it uses the value of its own
(then latest) event.  Returns the fetches that actually fire, each as
`(page index, keyword)`. -/
def firedFetches : List (ℚ × String) → List (Nat × String)
  | [] => []
  | (t, k) :: rest =>
    (match rest with
     | [] => [(1, k)]
     | (t2, _) :: _ => if t + debounce_delay ≤ t2 then [(1, k)] else []) ++ firedFetches rest

/-- All consecutive events of the burst arrive within the debounce
window of their predecessor. -/
def withinBurst : List (ℚ × String) → Prop
  | [] => True
  | [_] => True
  | (t1, _) :: (t2, k2) :: rest => t2 < t1 + debounce_delay ∧ withinBurst ((t2, k2) :: rest)

/-! ## The category tree builder (src/extwin/synthesis/tree_models.py) -/

/-- One record of the flat category payload consumed by
`CategoryModel._build_tree`: its id and the nested `CategoryLists`
children field (other record fields do not affect the structure). -/
inductive CatData where
  | mk (categoryId : String) (categoryLists : List CatData)

def CatData.categoryId : CatData → String
  | .mk i _ => i

/-- A built `CategoryItem`, arena-style: the node id, the id of the
parent item the node back-references (`none` for the synthetic root),
and the node's children in insertion order. -/
inductive BuiltNode where
  | mk (categoryId : String) (parentId : Option String) (children : List BuiltNode)

def BuiltNode.categoryId : BuiltNode → String
  | .mk i _ _ => i

def BuiltNode.parentId : BuiltNode → Option String
  | .mk _ p _ => p

/-- Model of `CategoryModel._build_tree` (tree_models.py lines 46-53):
one `CategoryItem` per record in source order, appended to the parent,
each child back-referencing the parent it was appended to, recursing
into the record's `CategoryLists`. -/
def build_tree (parentId : Option String) : List CatData → List BuiltNode
  | [] => []
  | .mk cid subs :: rest =>
    BuiltNode.mk cid parentId (build_tree (some cid) subs) :: build_tree parentId rest

/-- Model of `CategoryModel.__init__` (tree_models.py lines 39-44): the
synthetic root item carries id "root" and no parent, and the flat
payload is built beneath it. -/
def category_model_root (category_list : List CatData) : BuiltNode :=
  .mk "root" none (build_tree (some "root") category_list)

/-! ## Claim theorems for the request gateway -/

theorem request_model_token_expired {Res : Type} (emptyObj : Res) (env : Envelope Res)
    (bodyText : String) (st : AppState) (h : env.errorCode.getD (-1) = TOKEN_EXPIRED_CODE) :
    request_model emptyObj true ⟨200, bodyText, some env⟩ st =
      ({ st with is_token_expired := some true, is_system_admin := some false },
        .error (.businessLogicException TOKEN_EXPIRED_MESSAGE)) := by
  unfold request_model
  rw [if_neg (by simp [HTTP_SUCCESS])]
  show (if env.errorCode.getD (-1) = TOKEN_EXPIRED_CODE then _ else _) = _
  rw [if_pos h]

/-- C2 counterexample: the 401 envelope from the spec raises an
exception of the very same class (`BusinessLogicException`) as a plain
business failure (here `ErrorCode = 500`), so callers cannot tell the
two apart by kind — only the message differs. -/
theorem C2_same_kind_counterexample :
    errKindName (request_model CatPayload.notAList true
        ⟨200, "", some ⟨some 401, some 401, some "Token has expired", some CatPayload.notAList⟩⟩
        initialAppState) = some "BusinessLogicException" ∧
    errKindName (request_model CatPayload.notAList true
        ⟨200, "", some ⟨some 500, some 500, some "other failure", none⟩⟩
        initialAppState) = some "BusinessLogicException" := by
  constructor <;> rfl

/-- C2 (amended): when a business-checked request receives an envelope
whose ErrorCode equals 401, the gateway sets the auth state's
token-expired flag to true and its admin flag to false, and raises
`BusinessLogicException` with the fixed message "Token has expired" —
the same exception class as a generic business error, so the failure is
distinguishable only by its message, not by kind. -/
theorem C2_token_expired_behaviour {Res : Type} (emptyObj : Res) (env : Envelope Res)
    (bodyText : String) (st : AppState) (h : env.errorCode.getD (-1) = TOKEN_EXPIRED_CODE) :
    request_model emptyObj true ⟨200, bodyText, some env⟩ st =
      ({ st with is_token_expired := some true, is_system_admin := some false },
        .error (.businessLogicException TOKEN_EXPIRED_MESSAGE)) ∧
    DMException.kindName (.businessLogicException TOKEN_EXPIRED_MESSAGE) =
      DMException.kindName (.businessLogicException "any other business failure") :=
  ⟨request_model_token_expired emptyObj env bodyText st h, rfl⟩

/-- Witness for C2 at the spec's envelope
`{"ErrorCode":401,"StatusCode":401,"MessageCode":"Token has expired","Result":{}}`. -/
theorem C2_token_expired_behaviour_witness :
    request_model CatPayload.notAList true
        ⟨200, "", some ⟨some 401, some 401, some "Token has expired", some CatPayload.notAList⟩⟩
        initialAppState =
      ({ initialAppState with is_token_expired := some true, is_system_admin := some false },
        .error (.businessLogicException TOKEN_EXPIRED_MESSAGE)) :=
  (C2_token_expired_behaviour CatPayload.notAList
    ⟨some 401, some 401, some "Token has expired", some CatPayload.notAList⟩ ""
    initialAppState (by decide)).1

/-- C3: for a business-checked request with HTTP status 200 whose body
parses as a JSON object with ErrorCode ≠ 401, the request returns the
envelope's Result sub-object (defaulting to the empty object when the
Result field is absent) when both ErrorCode and StatusCode equal 200,
and otherwise raises a BusinessLogicException carrying both codes and
the message. -/
theorem C3_business_status_decoding {Res : Type} (emptyObj : Res) (env : Envelope Res)
    (bodyText : String) (st : AppState) (h : env.errorCode.getD (-1) ≠ TOKEN_EXPIRED_CODE) :
    request_model emptyObj true ⟨200, bodyText, some env⟩ st =
      (st,
       if env.errorCode.getD (-1) = BUSINESS_SUCCESS ∧ env.statusCode.getD (-1) = BUSINESS_SUCCESS
       then .ok (env.result.getD emptyObj)
       else .error (.businessLogicException ("Business Error ErrorCode=" ++
         toString (env.errorCode.getD (-1)) ++ " StatusCode=" ++
         toString (env.statusCode.getD (-1)) ++ ": " ++
         env.messageCode.getD "Unknown error"))) := by
  unfold request_model
  rw [if_neg (by simp [HTTP_SUCCESS])]
  show (if env.errorCode.getD (-1) = TOKEN_EXPIRED_CODE then _ else _) = _
  rw [if_neg h]
  by_cases hok : env.errorCode.getD (-1) = BUSINESS_SUCCESS ∧
      env.statusCode.getD (-1) = BUSINESS_SUCCESS
  · rw [if_neg (by rcases hok with ⟨h1, h2⟩; simp [h1, h2]), if_pos hok]
  · rw [if_pos (by tauto), if_neg hok]

/-- Witness for C3 at a failing envelope (`ErrorCode 500`) and at a
successful envelope with an absent Result field. -/
theorem C3_business_status_decoding_witness :
    request_model CatPayload.notAList true
        ⟨200, "", some ⟨some 500, some 200, some "boom", none⟩⟩ initialAppState =
      (initialAppState,
        .error (.businessLogicException "Business Error ErrorCode=500 StatusCode=200: boom")) ∧
    request_model CatPayload.notAList true
        ⟨200, "", some ⟨some 200, some 200, none, none⟩⟩ initialAppState =
      (initialAppState, .ok CatPayload.notAList) := by
  constructor
  · rw [C3_business_status_decoding CatPayload.notAList
      ⟨some 500, some 200, some "boom", none⟩ "" initialAppState (by decide)]
    rfl
  · rw [C3_business_status_decoding CatPayload.notAList
      ⟨some 200, some 200, none, none⟩ "" initialAppState (by decide)]
    rfl

/-- C9 counterexample: for an asset-type id that matches no configured
descriptor, both data-access operations complete without raising
anything — they log and return `None`, issuing no request — rather than
failing with a distinguished ConfigError kind (no such class exists in
the code). -/
theorem C9_unknown_type_counterexample :
    get_category_tree "NoSuchType" "Public" initialAppState
        (fun _ => ⟨200, "", none⟩) = ([], initialAppState, .ok none) ∧
    get_asset_list (0 : Nat) "NoSuchType" "Public" initialAppState
        (fun _ => ⟨200, "", none⟩) = ([], initialAppState, .ok none) :=
  ⟨rfl, rfl⟩

/-- C9 (amended): for every asset-type id that matches no configured
asset-type descriptor, the category-tree fetch and the item-list fetch
log an error and return `None` without issuing a request and without
raising any exception (the code defines no ConfigError kind; callers
receive `None` instead of a typed failure). -/
theorem C9_unknown_type_returns_none {Res : Type} (emptyObj : Res)
    (asset_type_id vis_tab : String) (st : AppState)
    (respond : String → HttpResponse CatPayload) (respond2 : String → HttpResponse Res)
    (h : ASSET_TYPES.find? (fun t => t.id = asset_type_id) = none) :
    get_category_tree asset_type_id vis_tab st respond = ([], st, .ok none) ∧
    get_asset_list emptyObj asset_type_id vis_tab st respond2 = ([], st, .ok none) := by
  constructor
  · unfold get_category_tree
    rw [h]
  · unfold get_asset_list
    rw [h]

/-- Witness for C9 (amended) at the unknown id "NoSuchType". -/
theorem C9_unknown_type_returns_none_witness :
    get_category_tree "NoSuchType" "Public" initialAppState
        (fun _ => ⟨200, "", none⟩) = ([], initialAppState, .ok none) ∧
    get_asset_list (0 : Nat) "NoSuchType" "Public" initialAppState
        (fun _ => ⟨200, "", none⟩) = ([], initialAppState, .ok none) :=
  C9_unknown_type_returns_none 0 "NoSuchType" "Public" initialAppState
    (fun _ => ⟨200, "", none⟩) (fun _ => ⟨200, "", none⟩) (by decide)

/-- C10: `AppState.__init__` never creates the attributes
`is_token_expired` and `is_system_admin` (they are first assigned when a
401 envelope is processed), yet both `get_category_tree` and
`get_asset_list` read `is_system_admin` while selecting the target URL
for the "Public" scope; so in any state where the attribute is still
missing, a "Public"-scope call to either operation raises
`AttributeError` before any request is sent. -/
theorem C10_public_scope_attribute_error :
    initialAppState.is_token_expired = none ∧ initialAppState.is_system_admin = none ∧
    (∀ {Res : Type} (emptyObj : Res) (st : AppState), st.is_system_admin = none →
      ∀ (asset_type_id : String) (t : AssetType),
        ASSET_TYPES.find? (fun x => x.id = asset_type_id) = some t →
        ∀ (respond : String → HttpResponse CatPayload) (respond2 : String → HttpResponse Res),
          get_category_tree asset_type_id "Public" st respond = ([], st, .error .attributeError) ∧
          get_asset_list emptyObj asset_type_id "Public" st respond2 =
            ([], st, .error .attributeError)) := by
  refine ⟨rfl, rfl, ?_⟩
  intro Res emptyObj st hadmin asset_type_id t hfind respond respond2
  constructor
  · unfold get_category_tree
    rw [hfind]
    simp [hadmin]
  · unfold get_asset_list
    rw [hfind]
    simp [hadmin]

/-- Witness for C10: a fresh process state and the configured id
"SimReady". -/
theorem C10_public_scope_attribute_error_witness :
    get_category_tree "SimReady" "Public" initialAppState
        (fun _ => ⟨200, "", none⟩) = ([], initialAppState, .error .attributeError) ∧
    get_asset_list (0 : Nat) "SimReady" "Public" initialAppState
        (fun _ => ⟨200, "", none⟩) = ([], initialAppState, .error .attributeError) :=
  C10_public_scope_attribute_error.2.2 0 initialAppState rfl "SimReady"
    (ASSET_TYPES.get ⟨0, by decide⟩) (by decide)
    (fun _ => ⟨200, "", none⟩) (fun _ => ⟨200, "", none⟩)

/-! ## Claim theorems for the pagination controller -/

theorem load_assets_step_skip {α : Type} (st : PageState α) (p : Int) (input : LoadInput α)
    (h : st.is_loading_more = true) : load_assets_step st p input = (st, .skipped) := by
  unfold load_assets_step
  rw [if_pos h]

theorem load_assets_step_releases {α : Type} (st : PageState α) (p : Int) (input : LoadInput α)
    (h : st.is_loading_more = false) :
    (load_assets_step st p input).1.is_loading_more = false := by
  unfold load_assets_step
  rw [if_neg (by simp [h])]
  cases input <;> rfl

theorem load_assets_step_success_eq {α : Type} (st : PageState α) (p : Int)
    (items : List α) (pageCount count : Int) (h : st.is_loading_more = false) :
    load_assets_step st p (.success items pageCount count) =
      ({ st with
          is_loading_more := false,
          current_page_index := p,
          total_pages_from_api := pageCount,
          total_count_from_api := count,
          all_loaded_asset_items := st.all_loaded_asset_items ++ items,
          displayed_asset_items :=
            if p = 1 then items else st.displayed_asset_items ++ items,
          no_more_assets_to_load :=
            if p ≥ pageCount ∨ count ≤ 0 then true else st.no_more_assets_to_load },
        .loaded) := by
  unfold load_assets_step
  rw [if_neg (by simp [h])]
  by_cases hc : p ≥ pageCount ∨ count ≤ 0
  · rw [if_pos hc]
    simp [hc]
  · rw [if_neg hc]
    simp [hc]

/-- C4: in-flight exclusivity — invoking the page fetch while a previous
fetch is still in flight returns immediately as a no-op with the state
untouched (no request is issued), and whenever a fetch actually starts,
the in-flight flag is false again after it completes, on the success
path, the failure path and the config-error path alike. -/
theorem C4_inflight_exclusivity {α : Type} (st : PageState α) (p : Int) (input : LoadInput α) :
    (st.is_loading_more = true → load_assets_step st p input = (st, .skipped)) ∧
    (st.is_loading_more = false → (load_assets_step st p input).1.is_loading_more = false) :=
  ⟨load_assets_step_skip st p input, load_assets_step_releases st p input⟩

/-- Witness for C4: a fetch attempted while one is in flight is a no-op,
and completed success and failure fetches leave the flag cleared. -/
theorem C4_inflight_exclusivity_witness :
    load_assets_step { initialPageState Nat with is_loading_more := true } 2 .failure =
      ({ initialPageState Nat with is_loading_more := true }, .skipped) ∧
    (load_assets_step (initialPageState Nat) 1 (.success [7] 3 9)).1.is_loading_more = false ∧
    (load_assets_step (initialPageState Nat) 1 .failure).1.is_loading_more = false :=
  ⟨(C4_inflight_exclusivity _ 2 .failure).1 rfl,
   (C4_inflight_exclusivity _ 1 (.success [7] 3 9)).2 rfl,
   (C4_inflight_exclusivity _ 1 .failure).2 rfl⟩

theorem run_pages_not_loading {α : Type} (st : PageState α) (itemsFor : Nat → List α)
    (T C : Int) (h : st.is_loading_more = false) :
    ∀ n, (run_pages st itemsFor T C n).is_loading_more = false := by
  intro n
  induction n with
  | zero => exact h
  | succ m ih => exact load_assets_step_releases _ _ _ ih

theorem load_assets_step_flag {α : Type} (st : PageState α) (p : Int)
    (items : List α) (pageCount count : Int) (h : st.is_loading_more = false) :
    (load_assets_step st p (.success items pageCount count)).1.no_more_assets_to_load =
      (if p ≥ pageCount ∨ count ≤ 0 then true else st.no_more_assets_to_load) := by
  rw [load_assets_step_success_eq st p items pageCount count h]

/-- C5: after a successful fetch started with the "no more data" flag
clear, the flag is set iff the fetched page index reaches the reported
total page count or the reported total count is ≤ 0; consequently, after
N ≥ 1 successful sequential fetches of pages 1..N from a freshly reset
context whose responses report `PageCount = T` and `Count = C`, the flag
holds iff N ≥ T or C ≤ 0. -/
theorem C5_no_more_data {α : Type} (st0 : PageState α) (itemsFor : Nat → List α) (T C : Int) :
    (∀ (st : PageState α) (p : Int) (items : List α),
      st.is_loading_more = false → st.no_more_assets_to_load = false →
      ((load_assets_step st p (.success items T C)).1.no_more_assets_to_load = true ↔
        (p ≥ T ∨ C ≤ 0))) ∧
    (∀ n : Nat, 1 ≤ n →
      ((run_pages (reset_pagination_state true st0) itemsFor T C n).no_more_assets_to_load =
          true ↔ ((n : Int) ≥ T ∨ C ≤ 0))) := by
  constructor
  · intro st p items hl hn
    rw [load_assets_step_flag st p items T C hl, hn]
    by_cases hc : p ≥ T ∨ C ≤ 0
    · simp [hc]
    · simp [hc]
  · intro n
    induction n with
    | zero => omega
    | succ m ih =>
      intro _
      show ((load_assets_step (run_pages (reset_pagination_state true st0) itemsFor T C m)
        ((m : Int) + 1) (.success (itemsFor (m + 1)) T C)).1.no_more_assets_to_load = true ↔ _)
      rw [load_assets_step_flag _ _ _ _ _
        (run_pages_not_loading (reset_pagination_state true st0) itemsFor T C rfl m)]
      by_cases hm : 1 ≤ m
      · have ihm := ih hm
        by_cases hc : (m : Int) + 1 ≥ T ∨ C ≤ 0
        · simp only [if_pos hc]
          constructor
          · intro _
            push_cast
            omega
          · intro _
            trivial
        · rw [if_neg hc, ihm]
          push_cast at hc ⊢
          omega
      · have hm0 : m = 0 := by omega
        subst hm0
        show ((if (0 : Int) + 1 ≥ T ∨ C ≤ 0 then true
          else (reset_pagination_state true st0).no_more_assets_to_load) = true ↔ _)
        by_cases hc : (0 : Int) + 1 ≥ T ∨ C ≤ 0
        · simp only [if_pos hc]
          constructor
          · intro _
            push_cast
            omega
          · intro _
            trivial
        · rw [if_neg hc]
          show ((false = true) ↔ _)
          push_cast at hc ⊢
          simp
          omega

/-- Witness for C5: two sequential fetches with `T = 2`, `C = 5` reach
"no more data" exactly at page 2. -/
theorem C5_no_more_data_witness :
    ((load_assets_step (initialPageState Nat) 1 (.success [7] 2 5)).1.no_more_assets_to_load =
        true ↔ ((1 : Int) ≥ 2 ∨ (5 : Int) ≤ 0)) ∧
    ((run_pages (reset_pagination_state true (initialPageState Nat)) (fun _ => [7]) 2 5
        2).no_more_assets_to_load = true ↔ ((2 : Int) ≥ 2 ∨ (5 : Int) ≤ 0)) :=
  ⟨(C5_no_more_data (initialPageState Nat) (fun _ => [7]) 2 5).1 (initialPageState Nat) 1 [7]
      rfl rfl,
   (C5_no_more_data (initialPageState Nat) (fun _ => [7]) 2 5).2 2 (by omega)⟩

/-- C6: append-versus-replace — on a successful fetch, the newly
returned items replace the displayed item cache when the requested page
index is 1 and are appended to it when the page index is greater than 1
(the cumulative `_all_loaded_asset_items` store is always extended). -/
theorem C6_append_vs_replace {α : Type} (st : PageState α) (p : Int) (items : List α)
    (T C : Int) (h : st.is_loading_more = false) :
    (load_assets_step st p (.success items T C)).1.displayed_asset_items =
      (if p = 1 then items else st.displayed_asset_items ++ items) ∧
    (load_assets_step st p (.success items T C)).1.all_loaded_asset_items =
      st.all_loaded_asset_items ++ items := by
  rw [load_assets_step_success_eq st p items T C h]
  exact ⟨rfl, rfl⟩

/-- Witness for C6: page 1 replaces, page 2 appends. -/
theorem C6_append_vs_replace_witness :
    (load_assets_step { initialPageState Nat with displayed_asset_items := [1, 2] } 1
        (.success [3] 9 9)).1.displayed_asset_items = [3] ∧
    (load_assets_step { initialPageState Nat with displayed_asset_items := [1, 2] } 2
        (.success [3] 9 9)).1.displayed_asset_items = [1, 2, 3] := by
  constructor
  · rw [(C6_append_vs_replace { initialPageState Nat with displayed_asset_items := [1, 2] }
      1 [3] 9 9 rfl).1]
    rfl
  · rw [(C6_append_vs_replace { initialPageState Nat with displayed_asset_items := [1, 2] }
      2 [3] 9 9 rfl).1]
    rfl

/-! ## Claim theorems for the search debounce and the tree builder -/

theorem firedFetches_burst : ∀ (events : List (ℚ × String)) (hne : events ≠ []),
    withinBurst events → firedFetches events = [(1, (events.getLast hne).2)]
  | [], hne, _ => absurd rfl hne
  | [(t, k)], _, _ => rfl
  | (t1, k1) :: (t2, k2) :: rest, _, hburst => by
    obtain ⟨hlt, hw⟩ := hburst
    have ih := firedFetches_burst ((t2, k2) :: rest) (by simp) hw
    show (if t1 + debounce_delay ≤ t2 then [(1, k1)] else []) ++
        firedFetches ((t2, k2) :: rest) = _
    rw [if_neg (by linarith), ih]
    simp [List.getLast]

/-- C7: search debounce coalescing — every keyword change cancels the
pending scheduled fetch and schedules a fresh page-1 fetch
`debounce_delay` (0.3 s) later, so a burst of keyword-change events in
which each event arrives within the debounce window of its predecessor
produces exactly one fetch: a page-1 fetch carrying the last keyword. -/
theorem C7_debounce_coalescing (events : List (ℚ × String)) (hne : events ≠ [])
    (hburst : withinBurst events) :
    firedFetches events = [(1, (events.getLast hne).2)] :=
  firedFetches_burst events hne hburst

/-- Witness for C7: three keyword changes at 0 s, 0.1 s and 0.2 s
produce exactly one page-1 fetch with the last keyword. -/
theorem C7_debounce_coalescing_witness :
    firedFetches [(0, "a"), (1/10, "ab"), (2/10, "abc")] = [(1, "abc")] :=
  C7_debounce_coalescing [(0, "a"), (1/10, "ab"), (2/10, "abc")] (by simp)
    (by refine ⟨by norm_num [debounce_delay], by norm_num [debounce_delay], trivial⟩)

theorem build_tree_cons (parentId : Option String) (cid : String)
    (subs rest : List CatData) :
    build_tree parentId (.mk cid subs :: rest) =
      BuiltNode.mk cid parentId (build_tree (some cid) subs) :: build_tree parentId rest := by
  simp [build_tree]

theorem build_tree_nil (parentId : Option String) : build_tree parentId [] = [] := by
  simp [build_tree]

theorem build_tree_ids (parentId : Option String) : ∀ (items : List CatData),
    (build_tree parentId items).map BuiltNode.categoryId = items.map CatData.categoryId
  | [] => by
    rw [build_tree_nil]
    rfl
  | .mk cid subs :: rest => by
    rw [build_tree_cons, List.map_cons, build_tree_ids parentId rest]
    rfl

theorem build_tree_parents (parentId : Option String) : ∀ (items : List CatData),
    ∀ n ∈ build_tree parentId items, n.parentId = parentId
  | [] => by
    intro n hn
    rw [build_tree_nil] at hn
    simp at hn
  | .mk cid subs :: rest => by
    intro n hn
    rw [build_tree_cons, List.mem_cons] at hn
    rcases hn with rfl | hn
    · rfl
    · exact build_tree_parents parentId rest n hn

/-- C8: category tree construction — the builder creates one node per
record in source order (the built ids are the record ids), every created
child back-references the parent it was appended to, and recursion
follows the record's nested `CategoryLists` field; in particular, for
the flat payload `[{CategoryId:"A", CategoryLists:[{CategoryId:"B",
CategoryLists:[]}]}]` the built tree is root → A → B with correct parent
linkage and no orphaned nodes. -/
theorem C8_tree_construction :
    (∀ (parentId : Option String) (items : List CatData),
      (build_tree parentId items).map BuiltNode.categoryId = items.map CatData.categoryId) ∧
    (∀ (parentId : Option String) (items : List CatData),
      ∀ n ∈ build_tree parentId items, n.parentId = parentId) ∧
    category_model_root [.mk "A" [.mk "B" []]] =
      .mk "root" none [.mk "A" (some "root") [.mk "B" (some "A") []]] := by
  refine ⟨build_tree_ids, build_tree_parents, ?_⟩
  unfold category_model_root
  simp [build_tree_cons, build_tree_nil]

/-- Witness for C8: the node built for record "A" under the root
back-references the root. -/
theorem C8_tree_construction_witness :
    (BuiltNode.mk "A" (some "root") [BuiltNode.mk "B" (some "A") []]).parentId =
      some "root" :=
  C8_tree_construction.2.1 (some "root") [CatData.mk "A" [CatData.mk "B" []]]
    (BuiltNode.mk "A" (some "root") [BuiltNode.mk "B" (some "A") []])
    (by simp [build_tree_cons, build_tree_nil])
